import Mathlib

/-!
Verification development for the SmartGrocer repository: shallow embedding of
`SmartGrocerUI/python/kumo_predictions.py`,
`SmartGrocerUI/python/kumo_personalized_ingredients.py` and
`dataset/grocery_dataset_generator.py`, together with theorems about the
embedded code.

Modelling conventions:
* Python numbers (ints and floats) are modelled as rationals `ℚ`; machine
  floating point rounding is not modelled (none of the verified properties
  depends on it).
* `pandas` dataframes are modelled as a list of column names together with a
  list of rows; a row is an association list from column name to cell value.
* The Mersenne Twister behind Python's `random` module is modelled abstractly:
  an unknown function `SeedFn : Nat → Nat → ℚ` maps a seed to the stream of
  `random.random()` outputs that follow `random.seed(seed)`;
  the module-level generator state is a stream plus a position in it.
  `random.uniform(a, b)` is `a + (b - a) * random.random()`.
* External services (the Kumo RFM model, the OpenAI completion API, `faker`)
  and the remaining sources of randomness of the dataset generator
  (`random.sample`, `random.choice`, `random.randint`) are modelled as
  oracle parameters; theorems that need contracts (for instance that
  `random.sample` picks from its population) take them as hypotheses.
-/

set_option linter.unusedVariables false
set_option linter.unnecessarySeqFocus false

namespace SmartGrocer

/-- A value stored in a dataframe cell or a result dictionary: a number
(Python ints and floats, as rationals), a string, or a boolean. -/
inductive PyVal where
  | num (q : ℚ)
  | str (s : String)
  | bool (b : Bool)
deriving DecidableEq, Repr

/-- A dataframe row / Python dict: association list from column name to value. -/
abbrev Row := List (String × PyVal)

/-- Look a column up in a row (first binding wins, as in a Python dict). -/
def rowGet (r : Row) (c : String) : Option PyVal :=
  (r.find? (fun p => p.1 == c)).map (·.2)

/-- Numeric view of a cell; pandas booleans count as 0/1 in aggregations.
A missing cell reads as 0 (unreachable when the column is present). -/
def rowNum (r : Row) (c : String) : ℚ :=
  match rowGet r c with
  | some (.num q) => q
  | some (.bool b) => if b then 1 else 0
  | _ => 0

/-- `str(...)` applied to a cell value. -/
def pyValStr : PyVal → String
  | .str s => s
  | .num q => toString q
  | .bool b => if b then "True" else "False"

/-- `str(...)` applied to a cell looked up in a row (missing reads as ""). -/
def rowStr (r : Row) (c : String) : String :=
  match rowGet r c with
  | some v => pyValStr v
  | none => ""

/-- An in-memory pandas dataframe. -/
structure DataFrame where
  columns : List String
  rows : List Row
deriving DecidableEq, Repr

/-- `df[df['product_id'] == pid]`: the rows whose product_id cell is `pid`. -/
def DataFrame.byProductId (df : DataFrame) (pid : ℚ) : List Row :=
  df.rows.filter (fun r => rowGet r "product_id" == some (.num pid))

/-- Python `int(...)` truncation toward zero on a rational. -/
def pyTrunc (q : ℚ) : ℤ := if 0 ≤ q then ⌊q⌋ else -⌊-q⌋

/-- Round to the nearest integer, ties to the even integer, as Python's
`round` does. -/
def roundHalfEven (x : ℚ) : ℤ :=
  if x - (⌊x⌋ : ℚ) < 1/2 then ⌊x⌋
  else if 1/2 < x - (⌊x⌋ : ℚ) then ⌊x⌋ + 1
  else if ⌊x⌋ % 2 = 0 then ⌊x⌋ else ⌊x⌋ + 1

/-- Python `round(x, 3)`. -/
def pyRound3 (x : ℚ) : ℚ := (roundHalfEven (1000 * x) : ℚ) / 1000

/-- Python `round(x, 2)`. -/
def pyRound2 (x : ℚ) : ℚ := (roundHalfEven (100 * x) : ℚ) / 100

/-- Python `round(x, 1)`. -/
def pyRound1 (x : ℚ) : ℚ := (roundHalfEven (10 * x) : ℚ) / 10

/-- Python's substring test `needle in hay` (for nonempty needles). -/
def strContains (hay needle : String) : Bool := (hay.splitOn needle).length > 1

/-- The state of the module-level `random` generator: the stream of future
`random.random()` outputs, and the current position in it. -/
structure Rng where
  stream : Nat → ℚ
  pos : Nat

/-- The abstract seeded generator: `f seed i` is the `i`-th `random.random()`
output after `random.seed(seed)`. -/
abbrev SeedFn := ℤ → Nat → ℚ

/-- `random.seed(n)`: the generator state is replaced by the seeded stream. -/
def seedRng (f : SeedFn) (n : ℤ) : Rng := ⟨f n, 0⟩

/-- `random.random()`: consume one draw from the stream. -/
def Rng.next (s : Rng) : ℚ × Rng := (s.stream s.pos, ⟨s.stream, s.pos + 1⟩)

/-- `random.uniform(a, b) = a + (b - a) * random.random()`. -/
def Rng.uniform (s : Rng) (a b : ℚ) : ℚ × Rng :=
  let (u, s') := s.next
  (a + (b - a) * u, s')

/-! ### `SmartGrocerPredictor.get_product_substitution_rate`
(`kumo_predictions.py` lines 487-567) -/

/-- The branch taken when `self.order_items_df is None`
(lines 490-501): seed with `product_id`, then draw. -/
def substRateNoData (f : SeedFn) (pid : ℤ) : ℚ × Rng :=
  let s := seedRng f pid
  let (r0, s) := s.next
  if r0 < 75/100 then
    let (u, s) := s.uniform (1/100) (6/100)
    (pyRound3 u, s)
  else
    let (r1, s) := s.next
    if r1 < 90/100 then
      let (u, s) := s.uniform (8/100) (15/100)
      (pyRound3 u, s)
    else
      let (u, s) := s.uniform (16/100) (30/100)
      (pyRound3 u, s)

/-- The branch taken when no order_items row matches the product
(lines 506-518). -/
def substRateNoHistory (f : SeedFn) (pid : ℤ) : ℚ × Rng :=
  let s := seedRng f pid
  let (r0, s) := s.next
  if r0 < 70/100 then
    let (u, s) := s.uniform (1/100) (7/100)
    (pyRound3 u, s)
  else
    let (r1, s) := s.next
    if r1 < 90/100 then
      let (u, s) := s.uniform (8/100) (15/100)
      (pyRound3 u, s)
    else
      let (u, s) := s.uniform (16/100) (35/100)
      (pyRound3 u, s)

/-- `round(random.uniform(0.01, 0.05), 3)` after `random.seed(product_id)`:
both the final fallback of line 560 (seeded at line 527, no draw consumed
before it) and the `except` handler of lines 562-567 (which re-seeds at
line 566) produce exactly this draw sequence. -/
def substRateLow (f : SeedFn) (pid : ℤ) : ℚ × Rng :=
  let s := seedRng f pid
  let (u, s) := s.uniform (1/100) (5/100)
  (pyRound3 u, s)

/-- The branch taken when matching order_items rows exist but there is no
`'substituted'` column (lines 524-560): seed, look the product up in
products_df and draw rates shaped by its price. A missing products table or
product row falls through to the line-560 fallback; a missing or non-numeric
`price_per_unit` cell raises in Python and lands in the `except` handler,
which produces the same draw (see `substRateLow`). -/
def substRateHeuristic (f : SeedFn) (products : Option DataFrame) (pid : ℤ) : ℚ × Rng :=
  let s := seedRng f pid
  match products with
  | some pdf =>
    if "product_id" ∈ pdf.columns then
      match (pdf.byProductId (pid : ℚ)).head? with
      | some prow =>
        match rowGet prow "price_per_unit" with
        | some (.num price) =>
          if 10 < price then
            let (r0, s) := s.next
            if r0 < 80/100 then
              let (u, s) := s.uniform (1/100) (6/100)
              (pyRound3 u, s)
            else
              let (u, s) := s.uniform (7/100) (12/100)
              (pyRound3 u, s)
          else if 5 < price then
            let (r0, s) := s.next
            if r0 < 60/100 then
              let (u, s) := s.uniform (1/100) (7/100)
              (pyRound3 u, s)
            else
              let (r1, s) := s.next
              if r1 < 85/100 then
                let (u, s) := s.uniform (8/100) (18/100)
                (pyRound3 u, s)
              else
                let (u, s) := s.uniform (19/100) (30/100)
                (pyRound3 u, s)
          else
            let (r0, s) := s.next
            if r0 < 50/100 then
              let (u, s) := s.uniform (1/100) (7/100)
              (pyRound3 u, s)
            else
              let (r1, s) := s.next
              if r1 < 75/100 then
                let (u, s) := s.uniform (8/100) (20/100)
                (pyRound3 u, s)
              else
                let (u, s) := s.uniform (21/100) (40/100)
                (pyRound3 u, s)
        | _ => substRateLow f pid
      | none =>
        let (u, s) := s.uniform (1/100) (5/100)
        (pyRound3 u, s)
    else substRateLow f pid
  | none =>
    let (u, s) := s.uniform (1/100) (5/100)
    (pyRound3 u, s)

/-- `SmartGrocerPredictor.get_product_substitution_rate` (lines 487-567),
with the module-level `random` generator state passed in and out explicitly.
Each pseudo-random branch re-seeds with `product_id` before drawing; the
empirical branch (a `'substituted'` column exists) uses no randomness.
A missing `product_id` column would raise `KeyError` in Python; the `except`
handler then re-seeds and draws `round(uniform(0.01, 0.05), 3)`. -/
def get_product_substitution_rate (f : SeedFn) (order_items products : Option DataFrame)
    (pid : ℤ) (s : Rng) : ℚ × Rng :=
  match order_items with
  | none => substRateNoData f pid
  | some oi =>
    if "product_id" ∈ oi.columns then
      let product_orders := oi.byProductId (pid : ℚ)
      if product_orders.isEmpty then
        substRateNoHistory f pid
      else if "substituted" ∈ oi.columns then
        ((product_orders.map (fun r => rowNum r "substituted")).sum / (product_orders.length : ℚ), s)
      else
        substRateHeuristic f products pid
    else
      substRateLow f pid

/-! ### The predictor's query paths and fallbacks (`kumo_predictions.py`) -/

/-- Stable insertion into a sorted list (ties keep earlier elements first). -/
def insertSorted (le : α → α → Bool) (x : α) : List α → List α
  | [] => [x]
  | y :: ys => if le y x then y :: insertSorted le x ys else x :: y :: ys

/-- A deterministic stable sort. `pandas.sort_values` uses an unstable
quicksort by default and Python's `list.sort` a stable mergesort; no verified
property depends on the order of tied keys, so both are modelled by this
insertion sort. -/
def sortStable (le : α → α → Bool) (l : List α) : List α :=
  l.foldl (fun acc x => insertSorted le x acc) []

/-- The object returned by `self.model.predict(query)`: the value behind
`TARGET_PRED.values[0]` (absent models a result whose attribute access
raises inside the inner `try`), the `CLASS` ranking (product ids are
integers), whether the result `is None` / `.empty`, and the rows seen by
`iterrows()` on the delivery-time path. -/
structure RFMResult where
  target : Option ℚ
  classes : List ℤ
  isNone : Bool
  drows : List Row

/-- The external Kumo RFM model: query string to result, `.error` when the
call raises. `none` at the use sites models `self.model` being unset or the
SDK being unavailable. -/
abbrev RFMModel := String → Except Unit RFMResult

/-- `d.get(k, default)` on the avg_quantities dict. -/
def dictGetD (d : List (ℚ × ℚ)) (k q0 : ℚ) : ℚ :=
  ((d.find? (fun p => p.1 == k)).map (·.2)).getD q0

/-- `order_items_df.groupby('product_id')['quantity'].mean().round().astype(int)`
(line 72): distinct product ids in ascending order (pandas groupby sorts
keys), each mapped to the half-even-rounded mean quantity. -/
def avgQuantities (order_items : DataFrame) : List (ℚ × ℚ) :=
  let pids := sortStable (fun a b => decide (a ≤ b))
    ((order_items.rows.map (fun r => rowNum r "product_id")).dedup)
  pids.map (fun pid =>
    let qs := (order_items.rows.filter (fun r => rowNum r "product_id" == pid)).map
      (fun r => rowNum r "quantity")
    (pid, (roundHalfEven (qs.sum / (qs.length : ℚ)) : ℚ)))

/-- The quantity pre-query of `predict_cart_items` (lines 122-123). -/
def quantityQuery (user_id : ℤ) : String :=
  "PREDICT SUM(order_items.quantity, 0, 10, days) " ++ "FOR users.user_id = " ++ toString user_id

/-- The product ranking query of `predict_cart_items` (lines 134-135). -/
def cartProductsQuery (user_id k : ℤ) : String :=
  "PREDICT LIST_DISTINCT(order_items.product_id, 0, 30, days) RANK TOP " ++ toString k ++
    " " ++ "FOR users.user_id = " ++ toString user_id

/-- The query of `predict_recommendations` (lines 194-195). -/
def recommendationsQuery (user_id k : ℤ) : String :=
  "PREDICT LIST_DISTINCT(order_items.product_id, 0, 60, days) RANK TOP " ++ toString k ++
    " " ++ "FOR users.user_id = " ++ toString user_id

/-- The query of `predict_delivery_times` (lines 249-250). -/
def deliveryQuery (user_id k : ℤ) : String :=
  "PREDICT LIST_DISTINCT(orders.delivery_window, 0, 30, days) RANK TOP " ++ toString k ++
    " " ++ "FOR users.user_id = " ++ toString user_id

/-- One entry of the `predict_cart_items` conversion loop (lines 152-173). -/
def cartEntry (product : Row) (pid : ℤ) (quantity : ℚ) : Row :=
  [("product_id", .num (pid : ℚ)),
   ("product_name", .str (rowStr product "product_name")),
   ("brand", .str (rowStr product "brand")),
   ("category", .str (rowStr product "category")),
   ("size", .str (rowStr product "size")),
   ("unit", .str (rowStr product "unit")),
   ("quantity", .num quantity),
   ("price_per_unit", .num (rowNum product "price_per_unit")),
   ("confidence", .num (95/100)),
   ("reason", .str ("Kumo RFM prediction: average quantity " ++ toString quantity ++
     " based on historical orders"))]

/-- One entry of `_fallback_predictions` (lines 363-384). -/
def fallbackPredEntry (product : Row) (quantity confidence : ℚ) (dietary : String) : Row :=
  [("product_id", .num ((pyTrunc (rowNum product "product_id") : ℤ) : ℚ)),
   ("product_name", .str (rowStr product "product_name")),
   ("brand", .str (rowStr product "brand")),
   ("category", .str (rowStr product "category")),
   ("size", .str (rowStr product "size")),
   ("unit", .str (rowStr product "unit")),
   ("quantity", .num quantity),
   ("price_per_unit", .num (rowNum product "price_per_unit")),
   ("confidence", .num confidence),
   ("reason", .str ("Enhanced fallback: matches " ++ dietary ++
     " diet, avg quantity from orders"))]

/-- `SmartGrocerPredictor._fallback_predictions` (lines 328-386): filter by
dietary preference, sort by price (ascending for households larger than 2,
descending otherwise), keep `num_predictions` rows. -/
def fallback_predictions (users products : Option DataFrame) (avgQ : List (ℚ × ℚ))
    (user_id num_predictions : ℤ) : List Row :=
  match users, products with
  | some udf, some pdf =>
    match (udf.rows.filter (fun r => rowGet r "user_id" == some (.num (user_id : ℚ)))).head? with
    | none => []
    | some user =>
      let dietary_pref := rowGet user "dietary_preference"
      let household_size := rowNum user "household_size"
      let suitable := if dietary_pref == some (.str "vegetarian") then
          pdf.rows.filter (fun r => rowGet r "category" == some (.str "Produce"))
        else pdf.rows
      let sorted := if 2 < household_size then
          sortStable (fun a b => decide (rowNum a "price_per_unit" ≤ rowNum b "price_per_unit"))
            suitable
        else
          sortStable (fun a b => decide (rowNum b "price_per_unit" ≤ rowNum a "price_per_unit"))
            suitable
      (sorted.take num_predictions.toNat).map (fun product =>
        let confidence : ℚ :=
          if dietary_pref == some (.str "vegetarian") &&
              rowGet product "category" == some (.str "Produce") then 8/10 else 7/10
        fallbackPredEntry product
          (dictGetD avgQ ((pyTrunc (rowNum product "product_id") : ℤ) : ℚ) 1)
          confidence (rowStr user "dietary_preference"))
  | _, _ => []

/-- The `number_products` computation of `predict_cart_items`
(lines 121-131): a failure of the quantity pre-query (or a result without
`TARGET_PRED`) is absorbed by the bare inner `except` with a default of 20. -/
def cartNumberProducts (predict : RFMModel) (user_id : ℤ) : ℤ :=
  match predict (quantityQuery user_id) with
  | .error _ => 20
  | .ok qr =>
    match qr.target with
    | none => 20
    | some q => pyTrunc q

/-- `SmartGrocerPredictor.predict_cart_items` (lines 115-185): the quantity
pre-query feeds the RANK TOP bound of the main products query; only a failure
of the main query reaches the outer handler and falls back. When
`products_df` is `None` the conversion loop raises and the outer handler
falls back as well. -/
def predict_cart_items (model : Option RFMModel) (users products : Option DataFrame)
    (avgQ : List (ℚ × ℚ)) (user_id num_predictions : ℤ) : List Row :=
  match model with
  | none => fallback_predictions users products avgQ user_id num_predictions
  | some predict =>
    let number_products : ℤ := cartNumberProducts predict user_id
    match predict (cartProductsQuery user_id (min num_predictions number_products)) with
    | .error _ => fallback_predictions users products avgQ user_id num_predictions
    | .ok pr =>
      match products with
      | none => fallback_predictions users none avgQ user_id num_predictions
      | some pdf =>
        pr.classes.filterMap (fun (pid : ℤ) =>
          ((pdf.byProductId (pid : ℚ)).head?).map (fun product =>
            cartEntry product pid (dictGetD avgQ (pid : ℚ) 1)))

/-- One entry of the `predict_recommendations` conversion loop (lines 210-229). -/
def recEntry (product : Row) (pid : ℤ) : Row :=
  [("product_id", .num (pid : ℚ)),
   ("product_name", .str (rowStr product "product_name")),
   ("brand", .str (rowStr product "brand")),
   ("category", .str (rowStr product "category")),
   ("size", .str (rowStr product "size")),
   ("unit", .str (rowStr product "unit")),
   ("price_per_unit", .num (rowNum product "price_per_unit")),
   ("confidence", .num (9/10)),
   ("reason", .str "Kumo RFM recommendation: predicted interest over 60 days")]

/-- One entry of `_fallback_recommendations` (lines 410-429). -/
def fallbackRecEntry (product : Row) (dietary : String) : Row :=
  [("product_id", .num ((pyTrunc (rowNum product "product_id") : ℤ) : ℚ)),
   ("product_name", .str (rowStr product "product_name")),
   ("brand", .str (rowStr product "brand")),
   ("category", .str (rowStr product "category")),
   ("size", .str (rowStr product "size")),
   ("unit", .str (rowStr product "unit")),
   ("price_per_unit", .num (rowNum product "price_per_unit")),
   ("confidence", .num (75/100)),
   ("reason", .str ("Enhanced fallback: suitable for " ++ dietary ++ " preference"))]

/-- `SmartGrocerPredictor._fallback_recommendations` (lines 388-431). -/
def fallback_recommendations (users products : Option DataFrame)
    (user_id num_recommendations : ℤ) : List Row :=
  match users, products with
  | some udf, some pdf =>
    match (udf.rows.filter (fun r => rowGet r "user_id" == some (.num (user_id : ℚ)))).head? with
    | none => []
    | some user =>
      let dietary_pref := rowGet user "dietary_preference"
      let suitable := if dietary_pref == some (.str "vegetarian") then
          pdf.rows.filter (fun r => rowGet r "category" == some (.str "Produce"))
        else pdf.rows
      (suitable.take num_recommendations.toNat).map (fun product =>
        fallbackRecEntry product (rowStr user "dietary_preference"))
  | _, _ => []

/-- `SmartGrocerPredictor.predict_recommendations` (lines 187-242). -/
def predict_recommendations (model : Option RFMModel) (users products : Option DataFrame)
    (user_id num_recommendations : ℤ) : List Row :=
  match model with
  | none => fallback_recommendations users products user_id num_recommendations
  | some predict =>
    match predict (recommendationsQuery user_id num_recommendations) with
    | .error _ => fallback_recommendations users products user_id num_recommendations
    | .ok pr =>
      match products with
      | none => fallback_recommendations users none user_id num_recommendations
      | some pdf =>
        pr.classes.filterMap (fun (pid : ℤ) =>
          ((pdf.byProductId (pid : ℚ)).head?).map (fun product => recEntry product pid))

/-! #### Delivery-time slots -/

/-- The wall clock as observed in one timezone: current hour and minute, and
the `isoformat()` strings of today / tomorrow at a given hour (minute zeroed).
`datetime.now`, timezone conversion and ISO formatting are external. -/
structure Clock where
  hour : Nat
  minute : Nat
  isoToday : Nat → String
  isoTomorrow : Nat → String

/-- The ambient time environment: clock per timezone and which timezone names
`pytz` recognises. A naive `datetime.now()` (used for UTC and for unknown
timezones) is modelled as the clock of `"UTC"`. -/
structure TimeEnv where
  nowIn : String → Clock
  tzKnown : String → Bool

/-- Timezone resolution of lines 264-272 / 442-450. -/
def resolveClock (te : TimeEnv) (tz : String) : Clock :=
  if tz ≠ "UTC" then
    (if te.tzKnown tz then te.nowIn tz else te.nowIn "UTC")
  else te.nowIn "UTC"

/-- Python's whitespace characters for `str.strip()`. -/
def isPySpace (c : Char) : Bool :=
  c == ' ' || c == '\t' || c == '\n' || c == '\r' || c == '\x0b' || c == '\x0c'

/-- `str.strip()`. -/
def pyStrip (s : String) : String :=
  ⟨((s.data.dropWhile isPySpace).reverse.dropWhile isPySpace).reverse⟩

/-- All-decimal-digit run to its value. -/
def parseDigits : List Char → Option Nat
  | [] => none
  | l => l.foldl (fun acc c =>
      match acc with
      | none => none
      | some n => if c.isDigit then some (n * 10 + (c.toNat - 48)) else none) (some 0)

/-- `int(s)`, best-effort: underscores between digits are not modelled, but
no verified property depends on which exact strings parse. -/
def pyParseInt (s : String) : Option ℤ :=
  match (pyStrip s).data with
  | [] => none
  | '-' :: rest => (parseDigits rest).map (fun n => -(n : ℤ))
  | '+' :: rest => (parseDigits rest).map (fun n => (n : ℤ))
  | l => (parseDigits l).map (fun n => (n : ℤ))

/-- Parse the start hour of a time window such as `"9am-11am"`
(lines 281-290 / 454-463). `'pm'`/`'am'` are replaced case-sensitively while
the containment check lowercases, exactly as in the source; an unparsable
hour returns `none` (the `ValueError` is caught and the slot skipped). -/
def parseWindowHour (w : String) : Option ℤ :=
  let start := pyStrip ((w.splitOn "-").headD "")
  let low := start.toLower
  let stripped := (start.replace "pm" "").replace "am" ""
  if strContains low "pm" && !(start.startsWith "12") then
    (pyParseInt stripped).map (· + 12)
  else if strContains low "am" && start.startsWith "12" then
    some 0
  else pyParseInt stripped

/-- Turn one time window into a slot row (lines 281-313 / 453-483): parse the
start hour, decide today vs tomorrow using the 30-minute buffer, and format.
An hour outside 0..23 makes `datetime.replace` raise `ValueError`, which the
handler turns into a skip. -/
def processSlot (c : Clock) (time_window : String) (score : ℚ) : Option Row :=
  match parseWindowHour time_window with
  | none => none
  | some h =>
    if 0 ≤ h && h ≤ 23 then
      if (c.hour : ℤ) > h || ((c.hour : ℤ) == h && 30 ≤ c.minute) then
        some [("time_window", .str time_window), ("date_label", .str "Tomorrow"),
              ("full_datetime", .str (c.isoTomorrow h.toNat)), ("score", .num score)]
      else
        some [("time_window", .str time_window), ("date_label", .str "Today"),
              ("full_datetime", .str (c.isoToday h.toNat)), ("score", .num score)]
    else none

/-- `SmartGrocerPredictor._fallback_delivery_times` (lines 433-485). -/
def fallback_delivery_times (te : TimeEnv) (user_id num_slots : ℤ) (timezone : String) :
    List Row :=
  let default_slots := ["9am-11am", "11am-1pm", "1pm-3pm", "3pm-5pm", "5pm-7pm"]
  let c := resolveClock te timezone
  (default_slots.take num_slots.toNat).enum.filterMap (fun p =>
    processSlot c p.2 (7/10 - (p.1 : ℚ) * (1/10)))

/-- `float(row.get('score', 0.5))`: a missing score reads as 0.5; a string
score would raise and skip the slot. -/
def slotScore (row : Row) : Option ℚ :=
  match rowGet row "score" with
  | some (.num q) => some q
  | some (.bool b) => some (if b then 1 else 0)
  | some (.str _) => none
  | none => some (1/2)

/-- `SmartGrocerPredictor.predict_delivery_times` (lines 244-326). -/
def predict_delivery_times (model : Option RFMModel) (te : TimeEnv)
    (user_id num_slots : ℤ) (timezone : String) : List Row :=
  match model with
  | none => fallback_delivery_times te user_id num_slots timezone
  | some predict =>
    match predict (deliveryQuery user_id num_slots) with
    | .error _ => fallback_delivery_times te user_id num_slots timezone
    | .ok r =>
      if r.isNone || r.drows.isEmpty then
        fallback_delivery_times te user_id num_slots timezone
      else
        let c := resolveClock te timezone
        let processed := r.drows.filterMap (fun row =>
          let tw := pyValStr ((rowGet row "delivery_window").getD (.str ""))
          if tw == "" || tw == "nan" then none
          else (slotScore row).bind (fun sc => processSlot c tw sc))
        let sorted := sortStable
          (fun a b => decide (rowNum b "score" ≤ rowNum a "score")) processed
        sorted.take num_slots.toNat

/-! ### The personalized ingredient ranker
(`kumo_personalized_ingredients.py`) -/

/-- One result entry of `rank_products_for_user`. -/
def rankEntry (product : Row) (pid : ℤ) (rank : Nat) : Row :=
  [("product_id", .num (pid : ℚ)),
   ("product_name", .str (rowStr product "product_name")),
   ("brand", .str (rowStr product "brand")),
   ("category", .str (rowStr product "category")),
   ("size", .str (rowStr product "size")),
   ("unit", .str (rowStr product "unit")),
   ("price_per_unit", .num (rowNum product "price_per_unit")),
   ("kumo_rank", .num (rank : ℚ))]

/-- The fallback loop of `rank_products_for_user` (lines 99-115 and, with
the identical body, the `except` handler of lines 167-183): keep the input
order, skip ids absent from products_df, rank by input position. -/
def rankFallbackLoop (pdf : DataFrame) : List ℤ → Nat → List Row → List Row
  | [], _, results => results
  | pid :: rest, i, results =>
    match (pdf.byProductId (pid : ℚ)).head? with
    | some product => rankFallbackLoop pdf rest (i + 1) (results ++ [rankEntry product pid (i + 1)])
    | none => rankFallbackLoop pdf rest (i + 1) results

/-- The first loop of the Kumo path (lines 127-142): walk the model's ranked
ids, keep those in the input list and present in products_df, rank by
position in the ranked list. -/
def rankKumoLoop (pdf : DataFrame) (product_ids : List ℤ) : List ℤ → Nat → List Row → List Row
  | [], _, results => results
  | pid :: rest, i, results =>
    if pid ∈ product_ids then
      match (pdf.byProductId (pid : ℚ)).head? with
      | some product =>
        rankKumoLoop pdf product_ids rest (i + 1) (results ++ [rankEntry product pid (i + 1)])
      | none => rankKumoLoop pdf product_ids rest (i + 1) results
    else rankKumoLoop pdf product_ids rest (i + 1) results

/-- The second loop of the Kumo path (lines 144-160): append input ids that
were not ranked, checking against the `ranked_ids` set computed once before
the loop. -/
def rankMissingLoop (pdf : DataFrame) (ranked_ids : List ℚ) : List ℤ → List Row → List Row
  | [], results => results
  | pid :: rest, results =>
    if (pid : ℚ) ∈ ranked_ids then rankMissingLoop pdf ranked_ids rest results
    else
      match (pdf.byProductId (pid : ℚ)).head? with
      | some product =>
        rankMissingLoop pdf ranked_ids rest (results ++ [rankEntry product pid (results.length + 1)])
      | none => rankMissingLoop pdf ranked_ids rest results

/-- The ranking query (line 120). -/
def ipRankingQuery (n : Nat) (user_id : ℤ) : String :=
  "PREDICT LIST_DISTINCT(order_items.product_id, 0, 30, days) RANK TOP " ++ toString n ++
    " FOR users.user_id = " ++ toString user_id

/-- `{result["product_id"] for result in results}` read back from the rows. -/
def resultIds (results : List Row) : List ℚ :=
  results.filterMap (fun r =>
    match rowGet r "product_id" with
    | some (.num q) => some q
    | _ => none)

/-- How many result entries carry a given product id. -/
def idCount (rows : List Row) (pid : ℤ) : Nat :=
  rows.countP (fun r => rowGet r "product_id" == some (.num (pid : ℚ)))

/-- Whether a product id has a row in the products table. -/
def hasProduct (pdf : DataFrame) (pid : ℤ) : Bool :=
  ((pdf.byProductId (pid : ℚ)).head?).isSome

/-- `PersonalizedIngredientRanker.rank_products_for_user` (lines 96-183).
The model is `none` when the SDK is unavailable or the graph was not built;
a raising prediction is `.error`. -/
def rank_products_for_user (model : Option (String → Except Unit (List ℤ)))
    (pdf : DataFrame) (product_ids : List ℤ) (user_id : ℤ) : List Row :=
  match model with
  | none => rankFallbackLoop pdf product_ids 0 []
  | some predict =>
    match predict (ipRankingQuery product_ids.length user_id) with
    | .error _ => rankFallbackLoop pdf product_ids 0 []
    | .ok ranked =>
      let results := rankKumoLoop pdf product_ids ranked 0 []
      rankMissingLoop pdf (resultIds results) product_ids results

/-! ### The dataset generator (`dataset/grocery_dataset_generator.py`) -/

/-- A record of products.csv. -/
structure Product where
  product_id : Nat
  product_name : String
  category : String
  brand : String
  size : String
  unit : String
  price_per_unit : ℚ
deriving DecidableEq, Repr

/-- One parsed object of the completion API's JSON response; a field is
`none` when its key is missing. -/
structure RawProduct where
  product_name : Option String
  brand : Option String
  size : Option String
  unit : Option String
  price_per_unit : Option ℚ
deriving Repr

/-- `all(key in product for key in [...])` (line 191). -/
def RawProduct.isValid (r : RawProduct) : Bool :=
  r.product_name.isSome && r.brand.isSome && r.size.isSome && r.unit.isSome &&
    r.price_per_unit.isSome

/-- The validation of lines 189-194: keep an entry only with all five keys
are present; a kept entry receives the requested category and the id
`start_id + i`, where `i` is its position among ALL parsed entries
(`enumerate(batch_products)`), valid or not. -/
def mkProduct? (category : String) (pid : Nat) (r : RawProduct) : Option Product :=
  match r.product_name, r.brand, r.size, r.unit, r.price_per_unit with
  | some n, some b, some sz, some u, some p => some ⟨pid, n, category, b, sz, u, p⟩
  | _, _, _, _, _ => none

/-- The `brands` dict of `generate_fallback_batch` (lines 319-328),
including the `.get` default. -/
def fallbackBrands (category : String) : List String :=
  if category == "Produce" then ["Fresh Market", "Organic Valley", "Local Farm", "Green Choice"]
  else if category == "Dairy" then ["Horizon", "Land O Lakes", "Great Value", "Organic Valley"]
  else if category == "Bakery" then ["Pepperidge Farm", "Wonder", "Sara Lee", "King Hawaiian"]
  else if category == "Meat & Seafood" then ["Tyson", "Perdue", "Wild Planet", "Oscar Mayer"]
  else if category == "Pantry Staples" then ["Hunt\x27s", "Kraft", "General Mills", "Quaker"]
  else if category == "Snacks" then ["Lay\x27s", "Cheetos", "Oreo", "Nabisco"]
  else if category == "Beverages" then ["Coca-Cola", "Pepsi", "Tropicana", "Nestlé"]
  else if category == "Household" then ["Tide", "Charmin", "Bounty", "Dawn"]
  else ["Generic Brand"]

/-- The random draws of one `generate_fallback_batch` run, indexed by the
product position `i`: the `random.choice` calls (per call site), the
`random.random()` behind `random.uniform` for the price, and the
`faker.word().title()` outputs. -/
structure FallbackOracle where
  brandPick : Nat → List String → String
  unitPick : Nat → List String → String
  namePick : Nat → List String → String
  sizePick : Nat → List String → String
  priceDraw : Nat → ℚ
  fakeWord : Nat → Nat → String

/-- `generate_fallback_batch` (lines 315-363). -/
def generate_fallback_batch (o : FallbackOracle) (category : String)
    (batch_size start_id : Nat) : List Product :=
  (List.range batch_size).map (fun i =>
    let brand := o.brandPick i (fallbackBrands category)
    if category == "Produce" then
      let items := ["Apples", "Bananas", "Carrots", "Lettuce", "Tomatoes", "Potatoes", "Onions"]
      ⟨start_id + i, brand ++ " " ++ o.namePick i items, category, brand,
        o.sizePick i ["1 lb", "2 lbs", "3 lbs", "5 lbs"], "lb",
        pyRound2 (1 + (6 - 1) * o.priceDraw i)⟩
    else if category == "Dairy" then
      let items := ["Milk", "Cheese", "Yogurt", "Butter", "Eggs", "Cream"]
      ⟨start_id + i, brand ++ " " ++ o.namePick i items, category, brand,
        o.sizePick i ["16 oz", "32 oz", "1 gallon", "12 count"],
        o.unitPick i ["oz", "gallon", "count"],
        pyRound2 (2 + (8 - 2) * o.priceDraw i)⟩
    else
      let items := (List.range 10).map (fun j => o.fakeWord i j)
      ⟨start_id + i, brand ++ " " ++ o.namePick i items, category, brand,
        o.sizePick i ["12 oz", "16 oz", "24 oz", "32 oz"], "oz",
        pyRound2 (15/10 + (12 - 15/10) * o.priceDraw i)⟩)

/-- `generate_base_products_batch` (lines 124-200). The API call and the
JSON unwrapping of lines 164-186 are modelled by `api`: `.error` covers both
a raising call and unparseable content, which land in the function's own
broad `except` and return the fallback batch. The valid entries are
truncated to `batch_size`. -/
def generate_base_products_batch (api : Except Unit (List RawProduct))
    (o : FallbackOracle) (category : String) (batch_size start_id : Nat) : List Product :=
  match api with
  | .error _ => generate_fallback_batch o category batch_size start_id
  | .ok raws =>
    (raws.enum.filterMap (fun p => mkProduct? category (start_id + p.1) p.2)).take batch_size

/-- The `brand_variants` dict of `create_similar_product` (lines 258-272),
with the generic-brands fallback folded in. -/
def brandVariants (brand : String) : List String :=
  if brand == "Whole Foods" then ["365 Everyday Value", "Whole Foods Market"]
  else if brand == "Great Value" then ["Walmart", "Equate"]
  else if brand == "Kroger" then ["Simple Truth", "Private Selection"]
  else if brand == "Target" then ["Good & Gather", "Market Pantry"]
  else if brand == "Safeway" then ["O Organics", "Signature Select"]
  else ["Store Brand", "Value Brand", "Premium Choice", "Fresh Select"]

/-- Python `s.split()` on spaces (runs collapse; other whitespace kinds are
not modelled, sizes only contain spaces). -/
def pySplitWS (s : String) : List String := (s.splitOn " ").filter (fun t => t ≠ "")

/-- A nonempty all-digit check after removing dots:
`size_parts[0].replace('.', '').isdigit()`. -/
def isDigitsNoDot (s : String) : Bool :=
  let t := s.replace "." ""
  !(t.data.isEmpty) && t.data.all Char.isDigit

/-- `float(s)` for the digit strings accepted by `isDigitsNoDot` with at
most one dot (a second dot makes Python raise; the caller treats that as a
skip, see `create_similar_product`). -/
def pyParseFloat (s : String) : Option ℚ :=
  match s.splitOn "." with
  | [a] => (parseDigits a.data).map (fun n => (n : ℚ))
  | [a, b] =>
    match parseDigits a.data, parseDigits b.data with
    | some n, some m => some ((n : ℚ) + (m : ℚ) / ((10 : ℚ) ^ b.length))
    | _, _ => none
  | _ => none

/-- Python's repr of the one-decimal float `t / 10` (`t` in tenths, `t ≥ 0`
in practice): `round(x, 1)` keeps one decimal and f-strings print it. -/
def fmtTenths (t : ℤ) : String :=
  toString (t / 10) ++ "." ++ toString (t % 10)

/-- The random draws of one `generate_similar_products` run: the two
`random.sample` selections, `random.choice([1, 2])` per selected product
`j`, and per variant `(j, k)` the four `random.random()` gates of
`create_similar_product` (`site` 0-3), the uniform draws behind the size and
price factors, and the brand / name-modifier choices. -/
structure SimilarOracle where
  pickSelected : List Product → Nat → List Product
  pickVariants : List Product → Nat → List Product
  numVariants : Nat → Nat
  draw : Nat → Nat → Nat → ℚ
  brandPick : Nat → Nat → List String → String
  sizeFactor : Nat → Nat → ℚ
  priceFactor : Nat → Nat → ℚ
  namePick : Nat → Nat → List String → String

/-- `create_similar_product` (lines 246-313) for variant `(j, k)`: copy the
base product under a new id, then apply the four independent random
modifications (brand 70%, size 60%, price 80%, name 30%). The `modifications`
bookkeeping list of the source is write-only and elided. A malformed size
that passes the digit check but fails `float()` would crash Python; the
embedding skips the modification instead (unreachable for the sizes the
pipeline produces). -/
def create_similar_product (o : SimilarOracle) (j k : Nat) (base : Product)
    (new_id : Nat) : Product :=
  let p0 := { base with product_id := new_id }
  let p1 := if o.draw j k 0 < 7/10 then
      { p0 with brand := o.brandPick j k (brandVariants p0.brand) }
    else p0
  let p2 := if o.draw j k 1 < 6/10 then
      match pySplitWS p1.size with
      | [] => p1
      | first :: restParts =>
        if isDigitsNoDot first then
          match pyParseFloat first with
          | some amount =>
            let t := roundHalfEven (10 * (amount * (8/10 + (15/10 - 8/10) * o.sizeFactor j k)))
            if 1/10 < (t : ℚ) / 10 then
              { p1 with size := fmtTenths t ++ " " ++ String.intercalate " " restParts }
            else p1
          | none => p1
        else p1
    else p1
  let p3 := if o.draw j k 2 < 8/10 then
      let new_price := pyRound2 (p2.price_per_unit * (7/10 + (13/10 - 7/10) * o.priceFactor j k))
      { p2 with price_per_unit := max (99/100) new_price }
    else p2
  if o.draw j k 3 < 3/10 then
    let modifier := o.namePick j k ["Premium", "Organic", "Natural", "Fresh", "Classic",
      "Original", "Extra"]
    if strContains p3.product_name.toLower modifier.toLower then p3
    else { p3 with product_name := modifier ++ " " ++ p3.product_name }
  else p3

/-- The inner variants loop of `generate_similar_products` (lines 235-239)
for base product `j`: one variant per element of `ks` (`range(num_variants)`),
with consecutively assigned ids from `cur`. Returns the variants and their
ids. -/
def variantsFor (o : SimilarOracle) (j : Nat) (b : Product) :
    List Nat → Nat → List Product × List Nat
  | [], _ => ([], [])
  | k :: ks, cur =>
    let p := create_similar_product o j k b cur
    let (ps, ids) := variantsFor o j b ks (cur + 1)
    (p :: ps, cur :: ids)

/-- The outer loop of `generate_similar_products` (lines 230-242): per
selected base product, draw 1-2 variants and map the base product's id to
the variant ids. -/
def variantsLoop (o : SimilarOracle) :
    List Product → Nat → Nat → List Product × List (Nat × List Nat)
  | [], _, _ => ([], [])
  | b :: rest, j, cur =>
    let nv := o.numVariants j
    let (ps, ids) := variantsFor o j b (List.range nv) cur
    let (ps2, m2) := variantsLoop o rest (j + 1) (cur + nv)
    (ps ++ ps2, (b.product_id, ids) :: m2)

/-- `generate_similar_products` (lines 202-244). -/
def generate_similar_products (o : SimilarOracle) (base_products : List Product)
    (start_id : Nat) (similar_batch_pct similar_subset_pct : ℚ) :
    List Product × List (Nat × List Nat) :=
  if base_products.isEmpty then ([], [])
  else
    let batch_selection_count :=
      max 1 (pyTrunc ((base_products.length : ℚ) * similar_batch_pct)).toNat
    let selected := o.pickSelected base_products (min batch_selection_count base_products.length)
    let variant_count := max 1 (pyTrunc ((selected.length : ℚ) * similar_subset_pct)).toNat
    let getting := o.pickVariants selected (min variant_count selected.length)
    variantsLoop o getting 0 start_id

/-- The per-category batch loop of `generate_products_via_api`
(lines 62-105), iterated over the batch indices of `range(0, ppc, bs)`.
The loop recomputes the remaining quota, `break`s when it is gone (stopping
the recursion), `continue`s on an empty base batch, and otherwise appends
base and similar products while advancing the id counter. The `except` of
lines 100-105 is unreachable: `generate_base_products_batch` catches its own
errors, and `generate_similar_products` cannot raise. State is
(category products, substitution map, id counter). -/
def categoryLoop (api : Nat → Nat → Except Unit (List RawProduct))
    (fb : Nat → Nat → FallbackOracle) (so : Nat → Nat → SimilarOracle)
    (catIdx : Nat) (category : String) (ppc bs : Nat) (p1 p2 : ℚ) :
    List Nat → List Product × List (Nat × List Nat) × Nat →
      List Product × List (Nat × List Nat) × Nat
  | [], st => st
  | bIdx :: rest, (catP, m, counter) =>
    let remaining : ℤ := (ppc : ℤ) - catP.length
    let cbs : ℤ := min (bs : ℤ) remaining
    if cbs ≤ 0 then (catP, m, counter)
    else
      let base := generate_base_products_batch (api catIdx bIdx) (fb catIdx bIdx)
        category cbs.toNat counter
      if base.isEmpty then
        categoryLoop api fb so catIdx category ppc bs p1 p2 rest (catP, m, counter)
      else
        let catP2 := catP ++ base
        let counter2 := counter + base.length
        let sim := generate_similar_products (so catIdx bIdx) base counter2 p1 p2
        if sim.1.isEmpty then
          categoryLoop api fb so catIdx category ppc bs p1 p2 rest (catP2, m, counter2)
        else
          categoryLoop api fb so catIdx category ppc bs p1 p2 rest
            (catP2 ++ sim.1, m ++ sim.2, counter2 + sim.1.length)

/-- The fixed category list (line 52). -/
def generatorCategories : List String :=
  ["Produce", "Dairy", "Bakery", "Meat & Seafood", "Pantry Staples", "Snacks",
   "Beverages", "Household"]

/-- `generate_products_via_api` (lines 37-122): per category, run the batch
loop (its `range(0, ppc, bs)` has `⌈ppc / bs⌉` iterations); products
accumulate globally, the substitution map and id counter (starting at 1)
persist across categories. Oracles are indexed by (category, batch). -/
def generate_products_via_api (api : Nat → Nat → Except Unit (List RawProduct))
    (fb : Nat → Nat → FallbackOracle) (so : Nat → Nat → SimilarOracle)
    (ppc bs : Nat) (p1 p2 : ℚ) : List Product × List (Nat × List Nat) :=
  let iters := if bs = 0 then 0 else (ppc + bs - 1) / bs
  let final := generatorCategories.enum.foldl
    (fun (st : List Product × List (Nat × List Nat) × Nat) c =>
      let r := categoryLoop api fb so c.1 c.2 ppc bs p1 p2 (List.range iters)
        ([], st.2.1, st.2.2)
      (st.1 ++ r.1, r.2.1, r.2.2))
    ([], [], 1)
  (final.1, final.2.1)

/-- A record of users.csv. -/
structure UserRec where
  user_id : Nat
  household_size : Nat
  dietary_preference : String
  primary_shopping_day : String
deriving DecidableEq, Repr

/-- The draws of `generate_users`: `randint(1, 5)`, and the two
`random.choice` calls, per user id. -/
structure UsersOracle where
  hh : Nat → Nat
  diet : Nat → List String → String
  day : Nat → List String → String

/-- `generate_users` (lines 381-397): users 1..100. -/
def generate_users (o : UsersOracle) : List UserRec :=
  (List.range' 1 100).map (fun i =>
    ⟨i, o.hh i, o.diet i ["none", "vegetarian", "gluten-free", "vegan"],
      o.day i ["Saturday", "Sunday", "Monday", "Wednesday"]⟩)

/-- A record of orders.csv (timestamps as an abstract integer). -/
structure OrderRec where
  order_id : Nat
  user_id : Nat
  order_timestamp : ℤ
  delivery_method : String
  delivery_time_window : String
deriving DecidableEq, Repr

/-- The draws of `generate_orders`, per order id: `randint(1, 100)` for the
user, the timestamp computation of lines 423-434 (faker dates plus
preferred-weekday alignment, external and abstracted as a function of the
user's preferred day), and the two `random.choice` calls. -/
structure OrdersOracle where
  uid : Nat → Nat
  ts : Nat → String → ℤ
  method : Nat → List String → String
  window : Nat → List String → String

/-- `generate_orders` (lines 399-444): orders 1..2000. The
`users_df[...].iloc[0]` lookup raises when the user id is absent; the
pipeline guarantees presence (ids 1..100), and the embedding's default
covers the dead branch. -/
def generate_orders (users : List UserRec) (o : OrdersOracle) : List OrderRec :=
  (List.range' 1 2000).map (fun order_id =>
    let user_id := o.uid order_id
    let user := (users.find? (fun u => u.user_id == user_id)).getD ⟨0, 0, "none", "Saturday"⟩
    ⟨order_id, user_id, o.ts order_id user.primary_shopping_day,
      o.method order_id ["pickup", "delivery"],
      o.window order_id ["9am-11am", "11am-1pm", "3pm-5pm", "5pm-7pm"]⟩)

/-- `group[group['product_id'] == p]['product_name'].iloc[0]`: the name of
the first row of the group with the given id (present whenever `p` comes
from the group itself). -/
def groupNameOf (group : List Product) (pid : Nat) : String :=
  ((group.find? (fun q => q.product_id == pid)).map (·.product_name)).getD ""

/-- The per-category entries of `create_product_affinities`
(lines 446-481): pandas `groupby` iterates keys in sorted order, and dict
insertion order is preserved by the association list. -/
def catAffinityGroups (products : List Product) (category : String) :
    List (String × List Nat) :=
  let group := products.filter (fun p => p.category == category)
  let gids := group.map (·.product_id)
  if category == "Pantry Staples" then
    let pasta := gids.filter (fun pid => strContains (groupNameOf group pid).toLower "pasta")
    let sauce := gids.filter (fun pid => strContains (groupNameOf group pid).toLower "sauce")
    [("pasta_meal", pasta ++ sauce)]
  else if category == "Dairy" then
    let milk := gids.filter (fun pid => strContains (groupNameOf group pid).toLower "milk")
    let cheese := gids.filter (fun pid => strContains (groupNameOf group pid).toLower "cheese")
    [("breakfast", milk), ("snacks", cheese)]
  else if category == "Produce" then [("healthy", gids)]
  else if category == "Snacks" then [("snack_time", gids)]
  else []

/-- `create_product_affinities` (lines 446-481), continued: fold the
per-category groups in sorted category order. -/
def create_product_affinities (products : List Product) : List (String × List Nat) :=
  let cats := sortStable (fun a b => decide (a ≤ b)) ((products.map (·.category)).dedup)
  cats.foldl (fun groups category => groups ++ catAffinityGroups products category) []

/-- A record of order_items.csv. -/
structure OrderItemRec where
  order_id : Nat
  product_id : Nat
  quantity : Nat
  was_substituted : Bool
deriving DecidableEq, Repr

/-- `set.update`: insert, keeping one copy of each element. CPython's set
iteration order for small ints is not guaranteed; the embedding keeps
insertion order, and no verified property depends on it. -/
def pySetAdd (s : List Nat) (xs : List Nat) : List Nat :=
  xs.foldl (fun acc x => if x ∈ acc then acc else acc ++ [x]) s

/-- The draws of `generate_order_items`, indexed by order position `i` (and
item position `k`, group index `g`, while-iteration `w` where applicable). -/
structure ItemsOracle where
  baseBasket : Nat → Nat
  initSample : Nat → List Nat → Nat → List Nat
  affCount : Nat → Nat → Nat
  affSample : Nat → Nat → List Nat → Nat → List Nat
  fillSample : Nat → Nat → List Nat → Nat → List Nat
  qtyDraw : Nat → Nat → ℚ
  qtyPick : Nat → Nat → Nat → Nat
  catDraw : Nat → Nat → ℚ
  catPick : Nat → Nat → Nat
  substDraw : Nat → Nat → ℚ
  substPick : Nat → Nat → List Nat → Nat

/-- The `while len(selected_products) < basket_size` loop (lines 528-534).
Each element of `budget` funds one iteration; Python loops forever when the
pool is exhausted (`random.sample` then returns `[]` and no progress is
made), which the embedding models by returning the current basket when the
budget runs out. A `basket_size`-long budget is exact whenever every
iteration makes progress. -/
def fillLoop (o : ItemsOracle) (i : Nat) (allIds : List Nat) (basket_size : Nat) :
    List Nat → List Nat → List Nat
  | [], selected => selected
  | w :: ws, selected =>
    if selected.length < basket_size then
      let remaining := basket_size - selected.length
      let pool := allIds.filter (fun p => p ∉ selected)
      let additional := o.fillSample i w pool (min remaining (allIds.length - selected.length))
      fillLoop o i allIds basket_size ws (pySetAdd selected additional)
    else selected

/-- The per-order body of `generate_order_items` (lines 497-568): basket
sizing from the household, the initial random sample, affinity-driven
additions, the fill loop, trimming, and per-item quantity and substitution
draws. The `users_df`/`products_df` `.iloc[0]` lookups raise on absence; the
defaults cover those dead branches (order user ids and selected product ids
come from the respective tables in the pipeline). -/
def orderItemsFor (o : ItemsOracle) (products : List Product)
    (affinity : List (String × List Nat)) (users : List UserRec)
    (substitution_map : List (Nat × List Nat)) (i : Nat) (order : OrderRec) :
    List OrderItemRec :=
  let user := (users.find? (fun u => u.user_id == order.user_id)).getD ⟨0, 1, "none", "Saturday"⟩
  let household_size := user.household_size
  let base_basket_size := o.baseBasket i
  let household_multiplier : ℚ := 1 + ((household_size : ℚ) - 1) * (3/10)
  let basket_size := min (pyTrunc ((base_basket_size : ℚ) * household_multiplier)).toNat 25
  let allIds := products.map (·.product_id)
  let selected0 := pySetAdd [] (o.initSample i allIds (min (basket_size / 2) allIds.length))
  let selected1 := affinity.enum.foldl (fun sel g =>
    if g.2.2.any (fun p => p ∈ sel) then
      pySetAdd sel (o.affSample i g.1 g.2.2 (min (o.affCount i g.1) g.2.2.length))
    else sel) selected0
  let selected2 := fillLoop o i allIds basket_size (List.range basket_size) selected1
  let selected := selected2.take basket_size
  selected.enum.map (fun pk =>
    let k := pk.1
    let product_id := pk.2
    let base_quantity :=
      if 2 < household_size then
        (if o.qtyDraw i k < 4/10 then o.qtyPick i k household_size else 1)
      else 1
    let product_info := (products.find? (fun q => q.product_id == product_id)).getD
      ⟨0, "", "", "", "", "", 0⟩
    let base_quantity2 :=
      if product_info.category == "Produce" || product_info.category == "Snacks" then
        (if o.catDraw i k < 3/10 then base_quantity + o.catPick i k else base_quantity)
      else base_quantity
    let substitutes := ((substitution_map.find? (fun e => e.1 == product_id)).map (·.2)).getD []
    if o.substDraw i k < 5/100 then
      if substitutes.isEmpty then
        ⟨order.order_id, product_id, base_quantity2, true⟩
      else
        ⟨order.order_id, o.substPick i k substitutes, base_quantity2, true⟩
    else ⟨order.order_id, product_id, base_quantity2, false⟩)

/-- `generate_order_items` (lines 483-570). -/
def generate_order_items (o : ItemsOracle) (orders : List OrderRec)
    (products : List Product) (users : List UserRec)
    (substitution_map : List (Nat × List Nat)) : List OrderItemRec :=
  let affinity := create_product_affinities products
  (orders.enum.map (fun p =>
    orderItemsFor o products affinity users substitution_map p.1 p.2)).flatten

/-- The order_items dataframe as the predictor reads it back from
order_items.csv: the generator writes exactly these four columns
(line 563-568); note `was_substituted`, not `substituted`. -/
def orderItemsToDF (items : List OrderItemRec) : DataFrame :=
  ⟨["order_id", "product_id", "quantity", "was_substituted"],
   items.map (fun it =>
     [("order_id", PyVal.num (it.order_id : ℚ)), ("product_id", PyVal.num (it.product_id : ℚ)),
      ("quantity", PyVal.num (it.quantity : ℚ)), ("was_substituted", PyVal.bool it.was_substituted)])⟩

/-! ### The command-line entry points -/

/-- One item printed to standard output: `json.dumps` of a list of dicts, a
bare numeric value (`print(substitution_rate)` — a JSON number literal), the
batch-rates dict, or a plain non-JSON text line. -/
inductive OutItem where
  | json (rows : List Row)
  | jsonNum (q : ℚ)
  | jsonObj (entries : List (ℤ × ℚ))
  | text (s : String)
deriving Repr

/-- Observable outcome of one CLI run: process exit code, stdout, stderr.
A run crashing on an uncaught exception exits with code 1 and a traceback on
stderr. Progress messages on stderr are summarised by short constant strings
(their interpolated details carry no verified property). -/
structure CliResult where
  exitCode : Nat
  stdout : List OutItem
  stderr : List String
deriving Repr

/-- The usage message of `kumo_personalized_ingredients.py` (line 189,
printed to stderr). -/
def kpiUsage : String :=
  "Usage: python kumo_personalized_ingredients.py <product_ids_json> <user_id>"

/-- `main` of `kumo_personalized_ingredients.py` (lines 186-212).
`jsonIds` models `json.loads` on the first argument (`none` for a
`JSONDecodeError`); `csv` is the loaded products table (`none` when
`load_csv_data` fails, having printed its error to stderr); `model` is the
graph-backed model (`none` when the SDK is missing or graph creation
failed). -/
def kp_ingredients_main (jsonIds : String → Option (List ℤ))
    (csv : Option DataFrame) (model : Option (String → Except Unit (List ℤ)))
    (argv : List String) : CliResult :=
  if argv.length < 3 then
    ⟨1, [], [kpiUsage]⟩
  else
    match jsonIds (argv.getD 1 ""), pyParseInt (argv.getD 2 "") with
    | some product_ids, some user_id =>
      match csv with
      | none => ⟨1, [], ["Error loading CSV data"]⟩
      | some products =>
        ⟨0, [.json (rank_products_for_user model products product_ids user_id)],
          ["Loaded data for personalized ranking"]⟩
    | _, _ => ⟨1, [], ["Invalid arguments"]⟩

/-- The usage message of `kumo_predictions.py` (lines 573-575 — printed to
standard output: the `print` call has no `file=sys.stderr`). -/
def kpUsage : String :=
  "Usage: python kumo_predictions.py [cart|recommendations] <user_id> [num_items]"

/-- The invalid-prediction-type message of `kumo_predictions.py` (line 626 —
also printed to standard output). -/
def kpInvalidType : String :=
  "Invalid prediction type. Use 'cart', 'recommendations', 'delivery-times', 'substitution-rate', or 'batch-substitution-rates'"

/-- The four CSV tables loaded by `SmartGrocerPredictor.load_csv_data`. -/
structure PredCsv where
  users : DataFrame
  products : DataFrame
  orders : DataFrame
  order_items : DataFrame

/-- The ambient state of one `kumo_predictions.py` run: loaded CSVs (`none`
when `load_csv_data` fails), the external model (`none` when unavailable),
the wall clock, and the `random` module (seed streams and current state). -/
structure PredictorEnv where
  csv : Option PredCsv
  model : Option RFMModel
  te : TimeEnv
  f : SeedFn
  rng : Rng

/-- `int(pid.strip())` over every comma-separated chunk; `none` when any
chunk fails, which in Python is an uncaught `ValueError` crash. -/
def parseIntList (l : List String) : Option (List ℤ) :=
  l.foldr (fun str acc =>
    match pyParseInt (pyStrip str), acc with
    | some v, some vs => some (v :: vs)
    | _, _ => none) (some [])

/-- The batch-substitution-rates loop (lines 604-606), threading the
`random` state through the calls. -/
def batchRates (env : PredictorEnv) (csv : PredCsv) (pids : List ℤ) : List (ℤ × ℚ) :=
  (pids.foldl (fun acc pid =>
    let (r, s') := get_product_substitution_rate env.f (some csv.order_items)
      (some csv.products) pid acc.2
    (acc.1 ++ [(pid, r)], s')) (([] : List (ℤ × ℚ)), env.rng)).1

/-- `main` of `kumo_predictions.py` (lines 570-631). The usage and
invalid-type messages go to standard output; an unparsable integer argument
is an uncaught `ValueError` (exit 1 with a traceback on stderr); a CSV
loading failure exits 1 after `load_csv_data` printed its error to stderr.
In batch mode the user-id parse is skipped and the product ids are parsed
only after the CSVs were loaded. -/
def kumo_predictions_main (env : PredictorEnv) (argv : List String) : CliResult :=
  if argv.length < 3 then
    ⟨1, [.text kpUsage], []⟩
  else
    let ptype := argv.getD 1 ""
    if ptype == "batch-substitution-rates" then
      match env.csv with
      | none => ⟨1, [], ["Error loading CSV data"]⟩
      | some csv =>
        match parseIntList ((argv.getD 2 "").splitOn ",") with
        | none => ⟨1, [], ["Traceback (most recent call last): ValueError"]⟩
        | some pids => ⟨0, [.jsonObj (batchRates env csv pids)], []⟩
    else
      match pyParseInt (argv.getD 2 ""),
          (if argv.length > 3 then pyParseInt (argv.getD 3 "") else some 5) with
      | some user_id, some num_items =>
        match env.csv with
        | none => ⟨1, [], ["Error loading CSV data"]⟩
        | some csv =>
          let avgQ := avgQuantities csv.order_items
          if ptype == "cart" then
            ⟨0, [.json (predict_cart_items env.model (some csv.users) (some csv.products)
              avgQ user_id num_items)], []⟩
          else if ptype == "recommendations" then
            ⟨0, [.json (predict_recommendations env.model (some csv.users)
              (some csv.products) user_id num_items)], []⟩
          else if ptype == "delivery-times" then
            let tz := if argv.length > 4 then argv.getD 4 "" else "UTC"
            ⟨0, [.json (predict_delivery_times env.model env.te user_id num_items tz)], []⟩
          else if ptype == "substitution-rate" then
            ⟨0, [.jsonNum (get_product_substitution_rate env.f (some csv.order_items)
              (some csv.products) user_id env.rng).1], []⟩
          else
            ⟨1, [.text kpInvalidType], []⟩
      | _, _ => ⟨1, [], ["Traceback (most recent call last): ValueError"]⟩

/-- The malformed-argument condition of `kumo_predictions.py`: too few
arguments, an unparsable integer where one is expected, or an unknown
prediction type. -/
def kpMalformedArgs (argv : List String) : Prop :=
  argv.length < 3
  ∨ (¬ (argv.getD 1 "" == "batch-substitution-rates") = true ∧
      (pyParseInt (argv.getD 2 "") = none
        ∨ (argv.length > 3 ∧ pyParseInt (argv.getD 3 "") = none)))
  ∨ ((argv.getD 1 "" == "batch-substitution-rates") = true ∧
      parseIntList ((argv.getD 2 "").splitOn ",") = none)
  ∨ (¬ (argv.getD 1 "" == "batch-substitution-rates") = true
      ∧ ¬ (argv.getD 1 "" == "cart") = true
      ∧ ¬ (argv.getD 1 "" == "recommendations") = true
      ∧ ¬ (argv.getD 1 "" == "delivery-times") = true
      ∧ ¬ (argv.getD 1 "" == "substitution-rate") = true)

/-! ### Concrete fixtures used to instantiate theorems -/

/-- A one-user users table fixture. -/
def usersFix : DataFrame :=
  ⟨["user_id", "household_size", "dietary_preference", "primary_shopping_day"],
   [[("user_id", .num 1), ("household_size", .num 1),
     ("dietary_preference", .str "none"), ("primary_shopping_day", .str "Saturday")]]⟩

/-- A one-product products table fixture (product 1, price 3). -/
def productsFix : DataFrame :=
  ⟨["product_id", "product_name", "category", "brand", "size", "unit", "price_per_unit"],
   [[("product_id", .num 1), ("product_name", .str "Apples"), ("category", .str "Produce"),
     ("brand", .str "Local Farm"), ("size", .str "1 lb"), ("unit", .str "lb"),
     ("price_per_unit", .num 3)]]⟩

/-- A model whose quantity pre-query raises while every other query succeeds
and ranks the single product 1. -/
def modelQuantityFails : RFMModel := fun q =>
  if q = quantityQuery 1 then .error ()
  else .ok ⟨none, [1], false, []⟩

/-- A predictor environment whose CSV loading failed (and trivial clock and
random oracles). -/
def envNoCsv : PredictorEnv :=
  ⟨none, none, ⟨fun _ => ⟨0, 0, fun _ => "", fun _ => ""⟩, fun _ => false⟩,
    fun _ _ => 0, ⟨fun _ => 0, 0⟩⟩

/-- A fallback-batch oracle taking first choices and zero draws. -/
def fbTrivial : FallbackOracle :=
  ⟨fun _ l => l.headD "", fun _ l => l.headD "", fun _ l => l.headD "",
   fun _ l => l.headD "", fun _ => 0, fun _ _ => ""⟩

/-- A similar-products oracle sampling first elements, one variant each, and
drawing 0.99 everywhere (no modification fires). -/
def soTake : SimilarOracle :=
  ⟨fun l k => l.take k, fun l k => l.take k, fun _ => 1, fun _ _ _ => 99/100,
   fun _ _ l => l.headD "", fun _ _ => 0, fun _ _ => 0, fun _ _ l => l.headD ""⟩

/-- A users oracle with constant draws. -/
def uoFix : UsersOracle := ⟨fun _ => 1, fun _ l => l.headD "", fun _ l => l.headD ""⟩

/-- An orders oracle always drawing user 1 and first choices. -/
def ooFix : OrdersOracle := ⟨fun _ => 1, fun _ _ => 0, fun _ l => l.headD "", fun _ l => l.headD ""⟩

/-- An items oracle sampling first elements and never substituting. -/
def ioTake : ItemsOracle :=
  ⟨fun _ => 5, fun _ pop k => pop.take k, fun _ _ => 1, fun _ _ pop k => pop.take k,
   fun _ _ pop k => pop.take k, fun _ _ => 1, fun _ _ _ => 2, fun _ _ => 1, fun _ _ => 1,
   fun _ _ => 1, fun _ _ l => l.headD 0⟩

/-- Five products fixture, in a category with no affinity groups. -/
def productsCE : List Product :=
  [⟨1, "P1", "Other", "B", "1 lb", "lb", 2⟩, ⟨2, "P2", "Other", "B", "1 lb", "lb", 2⟩,
   ⟨3, "P3", "Other", "B", "1 lb", "lb", 2⟩, ⟨4, "P4", "Other", "B", "1 lb", "lb", 2⟩,
   ⟨5, "P5", "Other", "B", "1 lb", "lb", 2⟩]

/-- One-user fixture for the generator. -/
def usersCE : List UserRec := [⟨1, 1, "none", "Saturday"⟩]

/-- One-order fixture for the generator. -/
def ordersCE : List OrderRec := [⟨1, 1, 0, "pickup", "9am-11am"⟩]

/-- An API behavior answering the very first batch with a malformed entry
followed by a valid one, and failing afterwards. -/
def badApi : Nat → Nat → Except Unit (List RawProduct) := fun c b =>
  if c = 0 ∧ b = 0 then
    .ok [⟨none, none, none, none, none⟩,
         ⟨some "Pasta", some "B", some "1 lb", some "lb", some 2⟩]
  else .error ()

/-! ### Bounds of the pseudo-random substitution-rate branches -/

theorem roundHalfEven_ge {m : ℤ} {x : ℚ} (h : (m : ℚ) ≤ x) : m ≤ roundHalfEven x := by
  unfold roundHalfEven
  have hf : m ≤ ⌊x⌋ := Int.le_floor.mpr h
  split_ifs <;> omega

theorem roundHalfEven_le {m : ℤ} {x : ℚ} (h : x < (m : ℚ)) : roundHalfEven x ≤ m := by
  unfold roundHalfEven
  have hfx : (⌊x⌋ : ℚ) ≤ x := Int.floor_le x
  have hf : ⌊x⌋ < m := by exact_mod_cast lt_of_le_of_lt hfx h
  split_ifs <;> omega

/-- What `1/100 ≤ r ∧ r ≤ 40/100 ∧ r is a multiple of 1/1000` looks like;
shared shape of all pseudo-random substitution-rate outcomes. -/
def rateBounded (r : ℚ) : Prop :=
  1/100 ≤ r ∧ r ≤ 40/100 ∧ ∃ k : ℤ, r = (k : ℚ) / 1000

/-- Every branch draws `round(uniform(a, b), 3)` with
`0.01 ≤ a < b ≤ 0.40` and `random.random() ∈ [0, 1)`, so the result lies in
`[0.01, 0.40]` and has three decimal places. -/
theorem rate_branch_bounds (a b u : ℚ) (hu0 : 0 ≤ u) (hu1 : u < 1)
    (ha : 1/100 ≤ a) (hab : a < b) (hb : b ≤ 40/100) :
    rateBounded (pyRound3 (a + (b - a) * u)) := by
  have h1 : (10 : ℤ) ≤ roundHalfEven (1000 * (a + (b - a) * u)) := by
    apply roundHalfEven_ge; push_cast; nlinarith
  have h2 : roundHalfEven (1000 * (a + (b - a) * u)) ≤ (400 : ℤ) := by
    apply roundHalfEven_le; push_cast; nlinarith
  unfold pyRound3
  refine ⟨?_, ?_, ⟨roundHalfEven (1000 * (a + (b - a) * u)), rfl⟩⟩
  · rw [le_div_iff₀ (by norm_num : (0:ℚ) < 1000)]
    have h1q : ((10 : ℤ) : ℚ) ≤ (roundHalfEven (1000 * (a + (b - a) * u)) : ℚ) := by
      exact_mod_cast h1
    push_cast at h1q ⊢
    linarith
  · rw [div_le_iff₀ (by norm_num : (0:ℚ) < 1000)]
    have h2q : ((roundHalfEven (1000 * (a + (b - a) * u))) : ℚ) ≤ ((400 : ℤ) : ℚ) := by
      exact_mod_cast h2
    push_cast at h2q ⊢
    linarith

theorem substRateNoData_bounds (f : SeedFn) (pid : ℤ)
    (hf : ∀ n i, 0 ≤ f n i ∧ f n i < 1) :
    rateBounded (substRateNoData f pid).1 := by
  unfold substRateNoData
  simp only [seedRng, Rng.next, Rng.uniform]
  split_ifs <;>
    exact rate_branch_bounds _ _ _ (hf _ _).1 (hf _ _).2 (by norm_num) (by norm_num) (by norm_num)

theorem substRateNoHistory_bounds (f : SeedFn) (pid : ℤ)
    (hf : ∀ n i, 0 ≤ f n i ∧ f n i < 1) :
    rateBounded (substRateNoHistory f pid).1 := by
  unfold substRateNoHistory
  simp only [seedRng, Rng.next, Rng.uniform]
  split_ifs <;>
    exact rate_branch_bounds _ _ _ (hf _ _).1 (hf _ _).2 (by norm_num) (by norm_num) (by norm_num)

theorem substRateLow_bounds (f : SeedFn) (pid : ℤ)
    (hf : ∀ n i, 0 ≤ f n i ∧ f n i < 1) :
    rateBounded (substRateLow f pid).1 := by
  unfold substRateLow
  simp only [seedRng, Rng.next, Rng.uniform]
  exact rate_branch_bounds _ _ _ (hf _ _).1 (hf _ _).2 (by norm_num) (by norm_num) (by norm_num)

theorem substRateHeuristic_bounds (f : SeedFn) (products : Option DataFrame) (pid : ℤ)
    (hf : ∀ n i, 0 ≤ f n i ∧ f n i < 1) :
    rateBounded (substRateHeuristic f products pid).1 := by
  unfold substRateHeuristic
  simp only [seedRng, Rng.next, Rng.uniform]
  cases products with
  | none =>
    exact rate_branch_bounds _ _ _ (hf _ _).1 (hf _ _).2
      (by norm_num) (by norm_num) (by norm_num)
  | some pdf =>
    dsimp only
    by_cases hc : "product_id" ∈ pdf.columns
    · rw [if_pos hc]
      cases hh : (pdf.byProductId (pid : ℚ)).head? with
      | none =>
        dsimp only
        exact rate_branch_bounds _ _ _ (hf _ _).1 (hf _ _).2
          (by norm_num) (by norm_num) (by norm_num)
      | some prow =>
        dsimp only
        cases hv : rowGet prow "price_per_unit" with
        | none => dsimp only; exact substRateLow_bounds f pid hf
        | some v =>
          cases v with
          | num price =>
            dsimp only
            split_ifs <;>
              exact rate_branch_bounds _ _ _ (hf _ _).1 (hf _ _).2
                (by norm_num) (by norm_num) (by norm_num)
          | str sv => dsimp only; exact substRateLow_bounds f pid hf
          | bool bv => dsimp only; exact substRateLow_bounds f pid hf
    · rw [if_neg hc]
      exact substRateLow_bounds f pid hf

/-- C1: the fallback substitution rate is deterministic: whatever the state of
the module-level generator at call time, two invocations of
`get_product_substitution_rate` on the same fixture return the same value,
because every pseudo-random branch first re-seeds with `product_id` (and the
empirical branch uses no randomness at all). -/
theorem C1_substitution_rate_deterministic (f : SeedFn)
    (order_items products : Option DataFrame) (pid : ℤ) (s₁ s₂ : Rng) :
    (get_product_substitution_rate f order_items products pid s₁).1 =
    (get_product_substitution_rate f order_items products pid s₂).1 := by
  cases order_items with
  | none => rfl
  | some df =>
    simp only [get_product_substitution_rate]
    split_ifs <;> rfl

/-- C10: whenever `get_product_substitution_rate` does not compute its result
from a `'substituted'` column (order_items missing, product absent from
order_items, column absent — which also covers the internal-exception branch,
see `substRateLow`), the returned rate lies in `[0.01, 0.40]` and has three
decimal places. -/
theorem C10_fallback_rate_bounded (f : SeedFn)
    (order_items products : Option DataFrame) (pid : ℤ) (s : Rng)
    (hf : ∀ n i, 0 ≤ f n i ∧ f n i < 1)
    (hpath : order_items = none ∨ ∃ oi, order_items = some oi ∧
      ("product_id" ∉ oi.columns ∨ (oi.byProductId (pid : ℚ)).isEmpty = true ∨
        "substituted" ∉ oi.columns)) :
    rateBounded (get_product_substitution_rate f order_items products pid s).1 := by
  rcases hpath with h | ⟨oi, rfl, hcase⟩
  · subst h
    exact substRateNoData_bounds f pid hf
  · simp only [get_product_substitution_rate]
    rcases hcase with hpc | hemp | hsub
    · rw [if_neg hpc]
      exact substRateLow_bounds f pid hf
    · by_cases hpid : "product_id" ∈ oi.columns
      · rw [if_pos hpid, if_pos hemp]
        exact substRateNoHistory_bounds f pid hf
      · rw [if_neg hpid]
        exact substRateLow_bounds f pid hf
    · by_cases hpid : "product_id" ∈ oi.columns
      · rw [if_pos hpid]
        by_cases hemp : (oi.byProductId (pid : ℚ)).isEmpty = true
        · rw [if_pos hemp]
          exact substRateNoHistory_bounds f pid hf
        · rw [if_neg hemp, if_neg hsub]
          exact substRateHeuristic_bounds f products pid hf
      · rw [if_neg hpid]
        exact substRateLow_bounds f pid hf

/-- Witness for C10: with the draw stream constantly 1/2 and no order_items
table, the rate for product 3 evaluates to 0.035, which satisfies the bounds. -/
theorem C10_fallback_rate_bounded_witness :
    (∀ n i : Nat, 0 ≤ (fun _ _ => (1:ℚ)/2) n i ∧ (fun _ _ => (1:ℚ)/2) n i < 1) ∧
    (get_product_substitution_rate (fun _ _ => 1/2) none none 3 ⟨fun _ => 0, 0⟩).1 = 35/1000 ∧
    rateBounded (get_product_substitution_rate (fun _ _ => 1/2) none none 3 ⟨fun _ => 0, 0⟩).1 := by
  refine ⟨fun n i => by norm_num, ?_, ?_⟩
  · norm_num [get_product_substitution_rate, substRateNoData, seedRng, Rng.next, Rng.uniform,
      pyRound3, roundHalfEven]
  · exact C10_fallback_rate_bounded (fun _ _ => 1/2) none none 3 ⟨fun _ => 0, 0⟩
      (fun n i => by norm_num) (Or.inl rfl)

/-! ### C2: external-call failures and the fallback heuristics -/

/-- C2 (amended): a failure of the main prediction query makes
`predict_cart_items`, `predict_recommendations` and `predict_delivery_times`
return their local fallback; the quantity pre-query of `predict_cart_items`
is the exception — its failure is absorbed by the bare inner `except` with a
default of 20 and does not fall back. -/
theorem C2_external_failure_falls_back :
    (∀ (predict : RFMModel) (user_id : ℤ) (e : Unit),
      predict (quantityQuery user_id) = .error e →
      cartNumberProducts predict user_id = 20)
    ∧ (∀ (predict : RFMModel) (users products : Option DataFrame) (avgQ : List (ℚ × ℚ))
        (user_id num_predictions : ℤ) (e : Unit),
      predict (cartProductsQuery user_id
        (min num_predictions (cartNumberProducts predict user_id))) = .error e →
      predict_cart_items (some predict) users products avgQ user_id num_predictions =
        fallback_predictions users products avgQ user_id num_predictions)
    ∧ (∀ (predict : RFMModel) (users products : Option DataFrame)
        (user_id num_recommendations : ℤ) (e : Unit),
      predict (recommendationsQuery user_id num_recommendations) = .error e →
      predict_recommendations (some predict) users products user_id num_recommendations =
        fallback_recommendations users products user_id num_recommendations)
    ∧ (∀ (predict : RFMModel) (te : TimeEnv) (user_id num_slots : ℤ) (tz : String) (e : Unit),
      predict (deliveryQuery user_id num_slots) = .error e →
      predict_delivery_times (some predict) te user_id num_slots tz =
        fallback_delivery_times te user_id num_slots tz) := by
  refine ⟨?_, ?_, ?_, ?_⟩
  · intro predict user_id e h
    simp [cartNumberProducts, h]
  · intro predict users products avgQ user_id num_predictions e h
    simp [predict_cart_items, h]
  · intro predict users products user_id num_recommendations e h
    simp [predict_recommendations, h]
  · intro predict te user_id num_slots tz e h
    simp [predict_delivery_times, h]

/-- Witness for C2: a model whose every call raises makes the cart path
return the fallback on the concrete fixture. -/
theorem C2_external_failure_falls_back_witness :
    ((fun _ => (Except.error () : Except Unit RFMResult))
        (cartProductsQuery 1 (min 5 (cartNumberProducts (fun _ => .error ()) 1))) =
      .error ()) ∧
    predict_cart_items (some (fun _ => .error ())) (some usersFix) (some productsFix) [] 1 5 =
      fallback_predictions (some usersFix) (some productsFix) [] 1 5 :=
  ⟨rfl, C2_external_failure_falls_back.2.1 (fun _ => .error ()) (some usersFix)
    (some productsFix) [] 1 5 () rfl⟩

/-- Counterexample to C2 as stated: the quantity pre-query raises inside
`predict_cart_items`, yet the function does not return the fallback — the
exception is swallowed by the inner `except` and the Kumo-based conversion
(confidence 0.95) is returned instead of the fallback entries
(confidence 0.7). -/
theorem C2_counterexample :
    modelQuantityFails (quantityQuery 1) = .error () ∧
    predict_cart_items (some modelQuantityFails) (some usersFix) (some productsFix) [] 1 5 ≠
      fallback_predictions (some usersFix) (some productsFix) [] 1 5 := by
  refine ⟨rfl, ?_⟩
  intro h
  have h1 : rowGet ((predict_cart_items (some modelQuantityFails) (some usersFix)
      (some productsFix) [] 1 5).headD []) "confidence" = some (.num (95/100)) := rfl
  have h2 : rowGet ((fallback_predictions (some usersFix) (some productsFix) [] 1 5).headD [])
      "confidence" = some (.num (7/10)) := rfl
  rw [h, h2] at h1
  simp only [Option.some.injEq, PyVal.num.injEq] at h1
  norm_num at h1

/-! ### C6: the fallback ranking of the personalized ingredient ranker -/

theorem rankFallbackLoop_eq (pdf : DataFrame) (l : List ℤ) (i : Nat) (acc : List Row) :
    rankFallbackLoop pdf l i acc = acc ++ (List.enumFrom i l).filterMap (fun p =>
      ((pdf.byProductId (p.2 : ℚ)).head?).map (fun product => rankEntry product p.2 (p.1 + 1))) := by
  induction l generalizing i acc with
  | nil => simp [rankFallbackLoop]
  | cons pid rest ih =>
    cases hh : (pdf.byProductId (pid : ℚ)).head? with
    | some product => simp [rankFallbackLoop, hh, ih, List.enumFrom]
    | none => simp [rankFallbackLoop, hh, ih, List.enumFrom]

/-- C6: when the model is unavailable (`none`) or its prediction raises,
`rank_products_for_user` returns the input ids in input order, skipping ids
absent from the products table, each entry ranked by its 1-based position in
the input list. -/
theorem C6_fallback_ranking (pdf : DataFrame) (product_ids : List ℤ) (user_id : ℤ) :
    (rank_products_for_user none pdf product_ids user_id =
      product_ids.enum.filterMap (fun p =>
        ((pdf.byProductId (p.2 : ℚ)).head?).map (fun product => rankEntry product p.2 (p.1 + 1))))
    ∧ ∀ predict : String → Except Unit (List ℤ),
      predict (ipRankingQuery product_ids.length user_id) = .error () →
      rank_products_for_user (some predict) pdf product_ids user_id =
        product_ids.enum.filterMap (fun p =>
          ((pdf.byProductId (p.2 : ℚ)).head?).map (fun product => rankEntry product p.2 (p.1 + 1))) := by
  constructor
  · simp [rank_products_for_user, rankFallbackLoop_eq, List.enum]
  · intro predict h
    simp [rank_products_for_user, h, rankFallbackLoop_eq, List.enum]

/-- Witness for C6: a raising model on the concrete fixture; product 2 is
absent from the table and skipped, product 1 keeps rank 1. -/
theorem C6_fallback_ranking_witness :
    ((fun _ => (Except.error () : Except Unit (List ℤ))) (ipRankingQuery 2 1) = .error ()) ∧
    rank_products_for_user (some (fun _ => .error ())) productsFix [1, 2] 1 =
      [(1 : ℤ), 2].enum.filterMap (fun p =>
        ((productsFix.byProductId (p.2 : ℚ)).head?).map
          (fun product => rankEntry product p.2 (p.1 + 1))) :=
  ⟨rfl, (C6_fallback_ranking productsFix [1, 2] 1).2 (fun _ => .error ()) rfl⟩

/-! ### C9: membership and multiplicity of the Kumo-ranked output -/

theorem rowGet_rankEntry (product : Row) (pid : ℤ) (rank : Nat) :
    rowGet (rankEntry product pid rank) "product_id" = some (.num (pid : ℚ)) := rfl

theorem idCount_append (l1 l2 : List Row) (pid : ℤ) :
    idCount (l1 ++ l2) pid = idCount l1 pid + idCount l2 pid := by
  simp [idCount, List.countP_append]

theorem idCount_rankEntry (product : Row) (q pid : ℤ) (rank : Nat) :
    idCount [rankEntry product q rank] pid = if q = pid then 1 else 0 := by
  simp only [idCount, List.countP_cons, List.countP_nil, rowGet_rankEntry]
  by_cases h : q = pid
  · subst h; simp
  · simp [h, fun hc => h (by exact_mod_cast hc : q = pid)]

theorem rankKumoLoop_idCount (pdf : DataFrame) (ids : List ℤ) (pid : ℤ) :
    ∀ (l : List ℤ) (i : Nat) (acc : List Row),
      idCount (rankKumoLoop pdf ids l i acc) pid =
        idCount acc pid +
          l.countP (fun q => decide (q = pid) && (decide (q ∈ ids) && hasProduct pdf q)) := by
  intro l
  induction l with
  | nil => intro i acc; simp [rankKumoLoop]
  | cons q rest ih =>
    intro i acc
    by_cases hq : q ∈ ids
    · cases hh : (pdf.byProductId (q : ℚ)).head? with
      | some product =>
        have hpres : hasProduct pdf q = true := by simp [hasProduct, hh]
        simp only [rankKumoLoop, hq, if_true, hh, ih, idCount_append, idCount_rankEntry,
          List.countP_cons, hpres, hq, decide_True, Bool.and_true, Bool.true_and]
        by_cases hqp : q = pid <;> simp [hqp] <;> omega
      | none =>
        have hpres : hasProduct pdf q = false := by simp [hasProduct, hh]
        simp [rankKumoLoop, hq, hh, ih, List.countP_cons, hpres]
    · simp only [rankKumoLoop, hq, if_false, ih, List.countP_cons]
      simp [hq]

theorem rankMissingLoop_idCount (pdf : DataFrame) (rids : List ℚ) (pid : ℤ) :
    ∀ (l : List ℤ) (acc : List Row),
      idCount (rankMissingLoop pdf rids l acc) pid =
        idCount acc pid +
          l.countP (fun q =>
            decide (q = pid) && (!(decide ((q : ℚ) ∈ rids)) && hasProduct pdf q)) := by
  intro l
  induction l with
  | nil => intro acc; simp [rankMissingLoop]
  | cons q rest ih =>
    intro acc
    by_cases hq : (q : ℚ) ∈ rids
    · simp only [rankMissingLoop, hq, if_true, ih, List.countP_cons]
      simp [hq]
    · cases hh : (pdf.byProductId (q : ℚ)).head? with
      | some product =>
        have hpres : hasProduct pdf q = true := by simp [hasProduct, hh]
        simp only [rankMissingLoop, hq, if_false, hh, ih, idCount_append, idCount_rankEntry,
          List.countP_cons, hpres, Bool.and_true]
        by_cases hqp : q = pid <;> simp [hqp, hq] <;> omega
      | none =>
        have hpres : hasProduct pdf q = false := by simp [hasProduct, hh]
        simp [rankMissingLoop, hq, hh, ih, List.countP_cons, hpres]

theorem countP_eq_of_nodup {l : List ℤ} (hl : l.Nodup) (pid : ℤ) (C : ℤ → Bool) :
    l.countP (fun q => decide (q = pid) && C q) = if pid ∈ l ∧ C pid = true then 1 else 0 := by
  induction l with
  | nil => simp
  | cons a rest ih =>
    have hrest := ih (List.Nodup.of_cons hl)
    rw [List.countP_cons, hrest]
    by_cases ha : a = pid
    · subst ha
      have hnotin : a ∉ rest := (List.nodup_cons.mp hl).1
      by_cases hc : C a = true
      · simp [hnotin, hc]
      · simp [hnotin, hc]
    · by_cases hmem : pid ∈ rest ∧ C pid = true
      · have hcons : pid ∈ a :: rest ∧ C pid = true :=
          ⟨List.mem_cons_of_mem _ hmem.1, hmem.2⟩
        simp [hmem, hcons, ha]
      · have hcons : ¬(pid ∈ a :: rest ∧ C pid = true) := by
          intro hx
          rcases List.mem_cons.mp hx.1 with h | h
          · exact ha h.symm
          · exact hmem ⟨h, hx.2⟩
        simp only [List.mem_cons] at hcons
        simp [hmem, hcons, ha]

theorem rankKumoLoop_eq (pdf : DataFrame) (ids : List ℤ) :
    ∀ (l : List ℤ) (i : Nat) (acc : List Row),
      rankKumoLoop pdf ids l i acc = acc ++ (List.enumFrom i l).filterMap (fun p =>
        if p.2 ∈ ids then
          ((pdf.byProductId (p.2 : ℚ)).head?).map (fun product => rankEntry product p.2 (p.1 + 1))
        else none) := by
  intro l
  induction l with
  | nil => intro i acc; simp [rankKumoLoop]
  | cons q rest ih =>
    intro i acc
    by_cases hq : q ∈ ids
    · cases hh : (pdf.byProductId (q : ℚ)).head? with
      | some product => simp [rankKumoLoop, hq, hh, ih, List.enumFrom]
      | none => simp [rankKumoLoop, hq, hh, ih, List.enumFrom]
    · simp [rankKumoLoop, hq, ih, List.enumFrom]

theorem mem_resultIds_kumo (pdf : DataFrame) (ids ranked : List ℤ) (pid : ℤ) :
    ((pid : ℚ) ∈ resultIds (rankKumoLoop pdf ids ranked 0 [])) ↔
      pid ∈ ranked ∧ pid ∈ ids ∧ hasProduct pdf pid = true := by
  rw [rankKumoLoop_eq]
  simp only [List.nil_append, resultIds, List.mem_filterMap]
  constructor
  · rintro ⟨r, ⟨⟨i, q⟩, hmem, hval⟩, hget⟩
    by_cases hq : q ∈ ids
    · simp only [hq, if_true, Option.map_eq_some'] at hval
      rcases hval with ⟨product, hh, rfl⟩
      have hqq : (q : ℚ) = (pid : ℚ) := Option.some.inj hget
      have hqp : q = pid := by exact_mod_cast hqq
      subst hqp
      have hqr : q ∈ ranked := by
        have h2 := (List.mk_mem_enumFrom_iff_le_and_getElem?_sub.mp hmem).2
        simp only [Nat.sub_zero] at h2
        rcases List.getElem?_eq_some.mp h2 with ⟨hlt, hEl⟩
        exact hEl ▸ List.getElem_mem hlt
      exact ⟨hqr, hq, by simp [hasProduct, hh]⟩
    · simp [hq] at hval
  · rintro ⟨hr, hi, hp⟩
    simp only [hasProduct] at hp
    rcases Option.isSome_iff_exists.mp hp with ⟨product, hh⟩
    rcases List.mem_iff_getElem.mp hr with ⟨i, hlt, hEl⟩
    have hmem : (i, pid) ∈ List.enumFrom 0 ranked := by
      rw [List.mk_mem_enumFrom_iff_le_and_getElem?_sub]
      refine ⟨Nat.zero_le _, ?_⟩
      simp [List.getElem?_eq_some, hlt, hEl]
    refine ⟨rankEntry product pid (i + 1), ⟨⟨i, pid⟩, hmem, ?_⟩, ?_⟩
    · simp [hi, hh]
    · rfl

theorem rankMissingLoop_split (pdf : DataFrame) (rids : List ℚ) :
    ∀ (l : List ℤ) (acc : List Row),
      ∃ add, rankMissingLoop pdf rids l acc = acc ++ add ∧
        ∀ r ∈ add, ∃ q, q ∈ l ∧ (q : ℚ) ∉ rids ∧ ∃ product rank,
          (pdf.byProductId (q : ℚ)).head? = some product ∧ r = rankEntry product q rank := by
  intro l
  induction l with
  | nil =>
    intro acc
    exact ⟨[], by simp [rankMissingLoop], by simp⟩
  | cons q rest ih =>
    intro acc
    by_cases hq : (q : ℚ) ∈ rids
    · rcases ih acc with ⟨add, heq, hmem⟩
      refine ⟨add, by simp [rankMissingLoop, hq, heq], ?_⟩
      intro r hr
      rcases hmem r hr with ⟨q', hq', hnr, product, rank, hh, hrfl⟩
      exact ⟨q', List.mem_cons_of_mem _ hq', hnr, product, rank, hh, hrfl⟩
    · cases hh : (pdf.byProductId (q : ℚ)).head? with
      | some product =>
        rcases ih (acc ++ [rankEntry product q (acc.length + 1)]) with ⟨add, heq, hmem⟩
        refine ⟨rankEntry product q (acc.length + 1) :: add, ?_, ?_⟩
        · simp only [rankMissingLoop, hq, if_false, hh, heq, List.append_assoc,
            List.singleton_append]
        · intro r hr
          rcases List.mem_cons.mp hr with h | h
          · exact ⟨q, List.mem_cons_self _ _, hq, product, acc.length + 1, hh, h⟩
          · rcases hmem r h with ⟨q', hq', hnr, product', rank', hh', hrfl⟩
            exact ⟨q', List.mem_cons_of_mem _ hq', hnr, product', rank', hh', hrfl⟩
      | none =>
        rcases ih acc with ⟨add, heq, hmem⟩
        refine ⟨add, by simp [rankMissingLoop, hq, hh, heq], ?_⟩
        intro r hr
        rcases hmem r hr with ⟨q', hq', hnr, product, rank, hh', hrfl⟩
        exact ⟨q', List.mem_cons_of_mem _ hq', hnr, product, rank, hh', hrfl⟩

/-- C9 (amended): with a duplicate-free input list and a duplicate-free
ranked list from the model, the output of `rank_products_for_user` has
exactly one entry for `pid` iff `pid` is in the input list and present in the
products table (and no entry otherwise), with model-ranked ids first and
unranked input ids appended afterward. Duplicate input ids break the
exactly-once part: the `ranked_ids` set is computed before the second loop
and never updated, so an unranked duplicate is emitted once per occurrence
(see the counterexample). -/
theorem C9_ranked_output_membership (pdf : DataFrame) (product_ids ranked : List ℤ)
    (user_id : ℤ) (predict : String → Except Unit (List ℤ))
    (hok : predict (ipRankingQuery product_ids.length user_id) = .ok ranked)
    (hnd : product_ids.Nodup) (hrd : ranked.Nodup) :
    (∀ pid : ℤ, idCount (rank_products_for_user (some predict) pdf product_ids user_id) pid =
      if pid ∈ product_ids ∧ hasProduct pdf pid = true then 1 else 0)
    ∧ ∃ l1 l2, rank_products_for_user (some predict) pdf product_ids user_id = l1 ++ l2 ∧
        (∀ r ∈ l1, ∃ q ∈ ranked, rowGet r "product_id" = some (.num (q : ℚ))) ∧
        (∀ r ∈ l2, ∃ q ∈ product_ids, q ∉ ranked ∧ rowGet r "product_id" = some (.num (q : ℚ))) := by
  simp only [rank_products_for_user, hok]
  constructor
  · intro pid
    rw [rankMissingLoop_idCount, rankKumoLoop_idCount]
    rw [countP_eq_of_nodup hrd pid, countP_eq_of_nodup hnd pid]
    simp only [idCount, List.countP_nil, Bool.and_eq_true, decide_eq_true_eq,
      Bool.not_eq_true', decide_eq_false_iff_not]
    by_cases hp : hasProduct pdf pid = true
    · by_cases hi : pid ∈ product_ids
      · by_cases hr : pid ∈ ranked
        · have hin : (pid : ℚ) ∈ resultIds (rankKumoLoop pdf product_ids ranked 0 []) :=
            (mem_resultIds_kumo pdf product_ids ranked pid).mpr ⟨hr, hi, hp⟩
          simp [hr, hi, hp, hin]
        · have hnin : (pid : ℚ) ∉ resultIds (rankKumoLoop pdf product_ids ranked 0 []) := by
            intro hin
            exact hr ((mem_resultIds_kumo pdf product_ids ranked pid).mp hin).1
          simp [hr, hi, hp, hnin]
      · have hnin : (pid : ℚ) ∉ resultIds (rankKumoLoop pdf product_ids ranked 0 []) := by
          intro hin
          exact hi ((mem_resultIds_kumo pdf product_ids ranked pid).mp hin).2.1
        simp [hi, hp, hnin]
    · simp [hp]
  · rcases rankMissingLoop_split pdf (resultIds (rankKumoLoop pdf product_ids ranked 0 []))
      product_ids (rankKumoLoop pdf product_ids ranked 0 []) with ⟨add, heq, hmem⟩
    refine ⟨rankKumoLoop pdf product_ids ranked 0 [], add, heq, ?_, ?_⟩
    · intro r hr
      rw [rankKumoLoop_eq] at hr
      simp only [List.nil_append, List.mem_filterMap] at hr
      rcases hr with ⟨⟨i, q⟩, hmem', hval⟩
      by_cases hq : q ∈ product_ids
      · simp only [hq, if_true, Option.map_eq_some'] at hval
        rcases hval with ⟨product, hh, rfl⟩
        have hqr : q ∈ ranked := by
          have h2 := (List.mk_mem_enumFrom_iff_le_and_getElem?_sub.mp hmem').2
          simp only [Nat.sub_zero] at h2
          rcases List.getElem?_eq_some.mp h2 with ⟨hlt, hEl⟩
          exact hEl ▸ List.getElem_mem hlt
        exact ⟨q, hqr, rowGet_rankEntry product q (i + 1)⟩
      · simp [hq] at hval
    · intro r hr
      rcases hmem r hr with ⟨q, hql, hnr, product, rank, hh, rfl⟩
      refine ⟨q, hql, ?_, rowGet_rankEntry product q rank⟩
      intro hqranked
      exact hnr ((mem_resultIds_kumo pdf product_ids ranked q).mpr
        ⟨hqranked, hql, by simp [hasProduct, hh]⟩)

/-- Witness for C9 (amended): the concrete fixture with a successful model
ranking `[1]`; product 1 appears exactly once, and the absent product 2 not
at all. -/
theorem C9_ranked_output_membership_witness :
    ((fun _ => (Except.ok [1] : Except Unit (List ℤ))) (ipRankingQuery 2 1) = .ok [1]) ∧
    ([(1 : ℤ), 2].Nodup) ∧ ([(1 : ℤ)].Nodup) ∧
    idCount (rank_products_for_user (some (fun _ => .ok [1])) productsFix [1, 2] 1) 1 = 1 ∧
    idCount (rank_products_for_user (some (fun _ => .ok [1])) productsFix [1, 2] 1) 2 = 0 := by
  refine ⟨rfl, by decide, by decide, ?_, ?_⟩
  · have h := (C9_ranked_output_membership productsFix [1, 2] [1] 1 (fun _ => .ok [1]) rfl
      (by decide) (by decide)).1 1
    rw [h]
    norm_num [hasProduct, DataFrame.byProductId, productsFix, rowGet]
  · have h := (C9_ranked_output_membership productsFix [1, 2] [1] 1 (fun _ => .ok [1]) rfl
      (by decide) (by decide)).1 2
    rw [h]
    norm_num [hasProduct, DataFrame.byProductId, productsFix, rowGet]

/-- Counterexample to C9 as stated: with duplicate input ids `[1, 1]` and the
(duplicate-free) ranked list `[]`, product 1 is emitted twice — the
`ranked_ids` set is computed before the second loop and never updated. -/
theorem C9_counterexample :
    (([] : List ℤ).Nodup) ∧
    idCount (rank_products_for_user (some (fun _ => .ok ([] : List ℤ))) productsFix [1, 1] 1) 1 = 2 := by
  constructor
  · exact List.nodup_nil
  · rfl

/-! ### C3 and C4: exit codes and output channels of the CLI scripts -/

theorem kpi_exit_iff (jsonIds : String → Option (List ℤ)) (csvI : Option DataFrame)
    (modelI : Option (String → Except Unit (List ℤ))) (argv : List String) :
    (kp_ingredients_main jsonIds csvI modelI argv).exitCode ≠ 0 ↔
      (argv.length < 3 ∨ jsonIds (argv.getD 1 "") = none ∨
        pyParseInt (argv.getD 2 "") = none ∨ csvI = none) := by
  rcases argv with _ | ⟨a0, _ | ⟨a1, _ | ⟨a2, rest⟩⟩⟩
  · simp [kp_ingredients_main]
  · simp [kp_ingredients_main]
  · simp [kp_ingredients_main]
  · have hlen : ¬(rest.length + 1 + 1 + 1 < 3) := by omega
    cases hj : jsonIds a1 with
    | none => simp [kp_ingredients_main, hlen, hj]
    | some ids =>
      cases hp : pyParseInt a2 with
      | none => simp [kp_ingredients_main, hlen, hj, hp]
      | some uid =>
        cases csvI with
        | none => simp [kp_ingredients_main, hlen, hj, hp]
        | some df => simp [kp_ingredients_main, hlen, hj, hp]

theorem kpi_stderr_on_failure (jsonIds : String → Option (List ℤ)) (csvI : Option DataFrame)
    (modelI : Option (String → Except Unit (List ℤ))) (argv : List String) :
    (kp_ingredients_main jsonIds csvI modelI argv).exitCode ≠ 0 →
      (kp_ingredients_main jsonIds csvI modelI argv).stderr ≠ [] := by
  rcases argv with _ | ⟨a0, _ | ⟨a1, _ | ⟨a2, rest⟩⟩⟩
  · simp [kp_ingredients_main]
  · simp [kp_ingredients_main]
  · simp [kp_ingredients_main]
  · have hlen : ¬(rest.length + 1 + 1 + 1 < 3) := by omega
    cases hj : jsonIds a1 with
    | none => simp [kp_ingredients_main, hlen, hj]
    | some ids =>
      cases hp : pyParseInt a2 with
      | none => simp [kp_ingredients_main, hlen, hj, hp]
      | some uid =>
        cases csvI with
        | none => simp [kp_ingredients_main, hlen, hj, hp]
        | some df => simp [kp_ingredients_main, hlen, hj, hp]

theorem kp_exit_iff (env : PredictorEnv) (argv : List String) :
    (kumo_predictions_main env argv).exitCode ≠ 0 ↔
      (kpMalformedArgs argv ∨ env.csv = none) := by
  rcases argv with _ | ⟨a0, _ | ⟨a1, _ | ⟨a2, rest⟩⟩⟩
  · simp [kumo_predictions_main, kpMalformedArgs]
  · simp [kumo_predictions_main, kpMalformedArgs]
  · simp [kumo_predictions_main, kpMalformedArgs]
  · have hlen : ¬(rest.length + 1 + 1 + 1 < 3) := by omega
    by_cases hbt : (a1 == "batch-substitution-rates") = true
    · cases hcsv : env.csv with
      | none => simp [kumo_predictions_main, kpMalformedArgs, hlen, hbt, hcsv]
      | some csv =>
        cases hpl : parseIntList (a2.splitOn ",") with
        | none => simp [kumo_predictions_main, kpMalformedArgs, hlen, hbt, hcsv, hpl]
        | some pids => simp [kumo_predictions_main, kpMalformedArgs, hlen, hbt, hcsv, hpl]
    · cases hp2 : pyParseInt a2 with
      | none => simp [kumo_predictions_main, kpMalformedArgs, hlen, hbt, hp2]
      | some uid =>
        rcases rest with _ | ⟨a3, rest2⟩
        · have hl3 : ¬(3 < ([] : List String).length + 1 + 1 + 1) := by simp
          cases hcsv : env.csv with
          | none => simp [kumo_predictions_main, kpMalformedArgs, hlen, hbt, hp2, hl3, hcsv]
          | some csv =>
            by_cases hc1 : (a1 == "cart") = true
            · simp [kumo_predictions_main, kpMalformedArgs, hlen, hbt, hp2, hl3, hcsv, hc1]
            · by_cases hc2 : (a1 == "recommendations") = true
              · simp [kumo_predictions_main, kpMalformedArgs, hlen, hbt, hp2, hl3, hcsv, hc1, hc2]
              · by_cases hc3 : (a1 == "delivery-times") = true
                · simp [kumo_predictions_main, kpMalformedArgs, hlen, hbt, hp2, hl3, hcsv,
                    hc1, hc2, hc3]
                · by_cases hc4 : (a1 == "substitution-rate") = true
                  · simp [kumo_predictions_main, kpMalformedArgs, hlen, hbt, hp2, hl3, hcsv,
                      hc1, hc2, hc3, hc4]
                  · simp [kumo_predictions_main, kpMalformedArgs, hlen, hbt, hp2, hl3, hcsv,
                      hc1, hc2, hc3, hc4]
        · have hl3 : 3 < rest2.length + 1 + 1 + 1 + 1 := by omega
          have hlen4 : ¬(rest2.length + 1 + 1 + 1 + 1 < 3) := by omega
          cases hp3 : pyParseInt a3 with
          | none => simp [kumo_predictions_main, kpMalformedArgs, hlen, hlen4, hbt, hp2, hl3, hp3]
          | some num =>
            cases hcsv : env.csv with
            | none => simp [kumo_predictions_main, kpMalformedArgs, hlen, hlen4, hbt, hp2, hl3, hp3, hcsv]
            | some csv =>
              by_cases hc1 : (a1 == "cart") = true
              · simp [kumo_predictions_main, kpMalformedArgs, hlen, hlen4, hbt, hp2, hl3, hp3, hcsv, hc1]
              · by_cases hc2 : (a1 == "recommendations") = true
                · simp [kumo_predictions_main, kpMalformedArgs, hlen, hlen4, hbt, hp2, hl3, hp3, hcsv,
                    hc1, hc2]
                · by_cases hc3 : (a1 == "delivery-times") = true
                  · simp [kumo_predictions_main, kpMalformedArgs, hlen, hlen4, hbt, hp2, hl3, hp3, hcsv,
                      hc1, hc2, hc3]
                  · by_cases hc4 : (a1 == "substitution-rate") = true
                    · simp [kumo_predictions_main, kpMalformedArgs, hlen, hlen4, hbt, hp2, hl3, hp3,
                        hcsv, hc1, hc2, hc3, hc4]
                    · simp [kumo_predictions_main, kpMalformedArgs, hlen, hlen4, hbt, hp2, hl3, hp3,
                        hcsv, hc1, hc2, hc3, hc4]

/-- C3 (amended): both CLI scripts exit non-zero exactly when the
command-line arguments are malformed (including an unknown prediction type)
or when CSV loading fails; `kumo_personalized_ingredients.py` prints a
message to standard error before any non-zero exit, while
`kumo_predictions.py` prints its usage and invalid-type messages to standard
output. SDK unavailability and prediction failures never change the exit
code. -/
theorem C3_exit_status (jsonIds : String → Option (List ℤ)) (csvI : Option DataFrame)
    (modelI : Option (String → Except Unit (List ℤ))) (env : PredictorEnv)
    (argv argv2 : List String) :
    ((kp_ingredients_main jsonIds csvI modelI argv).exitCode ≠ 0 ↔
      (argv.length < 3 ∨ jsonIds (argv.getD 1 "") = none ∨
        pyParseInt (argv.getD 2 "") = none ∨ csvI = none))
    ∧ ((kp_ingredients_main jsonIds csvI modelI argv).exitCode ≠ 0 →
        (kp_ingredients_main jsonIds csvI modelI argv).stderr ≠ [])
    ∧ ((kumo_predictions_main env argv2).exitCode ≠ 0 ↔
        (kpMalformedArgs argv2 ∨ env.csv = none)) :=
  ⟨kpi_exit_iff jsonIds csvI modelI argv,
   kpi_stderr_on_failure jsonIds csvI modelI argv,
   kp_exit_iff env argv2⟩

/-- Witness for C3: a failed CSV load in the personalized script exits 1
with a message on stderr, and the same failure makes the predictions script
exit non-zero. -/
theorem C3_exit_status_witness :
    ((kp_ingredients_main (fun _ => some [1]) none none
        ["kumo_personalized_ingredients.py", "[1]", "1"]).exitCode ≠ 0) ∧
    ((kp_ingredients_main (fun _ => some [1]) none none
        ["kumo_personalized_ingredients.py", "[1]", "1"]).stderr ≠ []) ∧
    ((kumo_predictions_main envNoCsv ["kumo_predictions.py", "cart", "1"]).exitCode ≠ 0) := by
  have h := C3_exit_status (fun _ => some [1]) none none envNoCsv
    ["kumo_personalized_ingredients.py", "[1]", "1"] ["kumo_predictions.py", "cart", "1"]
  have h1 : (kp_ingredients_main (fun _ => some [1]) none none
      ["kumo_personalized_ingredients.py", "[1]", "1"]).exitCode ≠ 0 :=
    h.1.mpr (Or.inr (Or.inr (Or.inr rfl)))
  exact ⟨h1, h.2.1 h1, h.2.2.mpr (Or.inr rfl)⟩

/-- Counterexample to C3 as stated: with well-formed arguments
(`cart 1` parses fine) a CSV loading failure still exits the process with
status 1 — CSV errors are fatal, not handled by a fallback path. -/
theorem C3_counterexample :
    pyParseInt "1" = some 1 ∧
    (kumo_predictions_main envNoCsv ["kumo_predictions.py", "cart", "1"]).exitCode = 1 :=
  ⟨rfl, rfl⟩

/-- C4 (amended): `kumo_personalized_ingredients.py` writes only JSON to
standard output; `kumo_predictions.py` writes JSON results to standard
output except for its usage message and its invalid-prediction-type message,
which are plain text printed to standard output. -/
theorem C4_stdout_is_json (jsonIds : String → Option (List ℤ)) (csvI : Option DataFrame)
    (modelI : Option (String → Except Unit (List ℤ))) (env : PredictorEnv)
    (argv argv2 : List String) :
    (∀ item ∈ (kp_ingredients_main jsonIds csvI modelI argv).stdout,
      ∃ rows, item = OutItem.json rows)
    ∧ (∀ item ∈ (kumo_predictions_main env argv2).stdout,
        (∃ rows, item = OutItem.json rows) ∨ (∃ q, item = OutItem.jsonNum q) ∨
        (∃ d, item = OutItem.jsonObj d) ∨
        item = OutItem.text kpUsage ∨ item = OutItem.text kpInvalidType) := by
  constructor
  · intro item hmem
    rcases argv with _ | ⟨a0, _ | ⟨a1, _ | ⟨a2, rest⟩⟩⟩
    · simp [kp_ingredients_main] at hmem
    · simp [kp_ingredients_main] at hmem
    · simp [kp_ingredients_main] at hmem
    · have hlen : ¬(rest.length + 1 + 1 + 1 < 3) := by omega
      cases hj : jsonIds a1 with
      | none => simp [kp_ingredients_main, hlen, hj] at hmem
      | some ids =>
        cases hp : pyParseInt a2 with
        | none => simp [kp_ingredients_main, hlen, hj, hp] at hmem
        | some uid =>
          cases csvI with
          | none => simp [kp_ingredients_main, hlen, hj, hp] at hmem
          | some df =>
            simp [kp_ingredients_main, hlen, hj, hp] at hmem
            exact ⟨_, hmem⟩
  · intro item hmem
    rcases argv2 with _ | ⟨a0, _ | ⟨a1, _ | ⟨a2, rest⟩⟩⟩
    · simp [kumo_predictions_main] at hmem
      exact Or.inr (Or.inr (Or.inr (Or.inl hmem)))
    · simp [kumo_predictions_main] at hmem
      exact Or.inr (Or.inr (Or.inr (Or.inl hmem)))
    · simp [kumo_predictions_main] at hmem
      exact Or.inr (Or.inr (Or.inr (Or.inl hmem)))
    · have hlen : ¬(rest.length + 1 + 1 + 1 < 3) := by omega
      by_cases hbt : (a1 == "batch-substitution-rates") = true
      · cases hcsv : env.csv with
        | none => simp [kumo_predictions_main, hlen, hbt, hcsv] at hmem
        | some csv =>
          cases hpl : parseIntList (a2.splitOn ",") with
          | none => simp [kumo_predictions_main, hlen, hbt, hcsv, hpl] at hmem
          | some pids =>
            simp [kumo_predictions_main, hlen, hbt, hcsv, hpl] at hmem
            exact Or.inr (Or.inr (Or.inl ⟨_, hmem⟩))
      · cases hp2 : pyParseInt a2 with
        | none => simp [kumo_predictions_main, hlen, hbt, hp2] at hmem
        | some uid =>
          rcases rest with _ | ⟨a3, rest2⟩
          · have hl3 : ¬(3 < ([] : List String).length + 1 + 1 + 1) := by simp
            cases hcsv : env.csv with
            | none => simp [kumo_predictions_main, hlen, hbt, hp2, hl3, hcsv] at hmem
            | some csv =>
              by_cases hc1 : (a1 == "cart") = true
              · simp [kumo_predictions_main, hlen, hbt, hp2, hl3, hcsv, hc1] at hmem
                exact Or.inl ⟨_, hmem⟩
              · by_cases hc2 : (a1 == "recommendations") = true
                · simp [kumo_predictions_main, hlen, hbt, hp2, hl3, hcsv, hc1, hc2] at hmem
                  exact Or.inl ⟨_, hmem⟩
                · by_cases hc3 : (a1 == "delivery-times") = true
                  · simp [kumo_predictions_main, hlen, hbt, hp2, hl3, hcsv, hc1, hc2, hc3] at hmem
                    exact Or.inl ⟨_, hmem⟩
                  · by_cases hc4 : (a1 == "substitution-rate") = true
                    · simp [kumo_predictions_main, hlen, hbt, hp2, hl3, hcsv,
                        hc1, hc2, hc3, hc4] at hmem
                      exact Or.inr (Or.inl ⟨_, hmem⟩)
                    · simp [kumo_predictions_main, hlen, hbt, hp2, hl3, hcsv,
                        hc1, hc2, hc3, hc4] at hmem
                      exact Or.inr (Or.inr (Or.inr (Or.inr hmem)))
          · have hl3 : 3 < rest2.length + 1 + 1 + 1 + 1 := by omega
            have hlen4 : ¬(rest2.length + 1 + 1 + 1 + 1 < 3) := by omega
            cases hp3 : pyParseInt a3 with
            | none => simp [kumo_predictions_main, hlen, hlen4, hbt, hp2, hl3, hp3] at hmem
            | some num =>
              cases hcsv : env.csv with
              | none => simp [kumo_predictions_main, hlen, hlen4, hbt, hp2, hl3, hp3, hcsv] at hmem
              | some csv =>
                by_cases hc1 : (a1 == "cart") = true
                · simp [kumo_predictions_main, hlen, hlen4, hbt, hp2, hl3, hp3, hcsv, hc1] at hmem
                  exact Or.inl ⟨_, hmem⟩
                · by_cases hc2 : (a1 == "recommendations") = true
                  · simp [kumo_predictions_main, hlen, hlen4, hbt, hp2, hl3, hp3, hcsv, hc1, hc2] at hmem
                    exact Or.inl ⟨_, hmem⟩
                  · by_cases hc3 : (a1 == "delivery-times") = true
                    · simp [kumo_predictions_main, hlen, hlen4, hbt, hp2, hl3, hp3, hcsv,
                        hc1, hc2, hc3] at hmem
                      exact Or.inl ⟨_, hmem⟩
                    · by_cases hc4 : (a1 == "substitution-rate") = true
                      · simp [kumo_predictions_main, hlen, hlen4, hbt, hp2, hl3, hp3, hcsv,
                          hc1, hc2, hc3, hc4] at hmem
                        exact Or.inr (Or.inl ⟨_, hmem⟩)
                      · simp [kumo_predictions_main, hlen, hlen4, hbt, hp2, hl3, hp3, hcsv,
                          hc1, hc2, hc3, hc4] at hmem
                        exact Or.inr (Or.inr (Or.inr (Or.inr hmem)))

/-- Witness for C4: the personalized script's success output is the JSON
result list, and the predictions script's usage message is a stdout text
item. -/
theorem C4_stdout_is_json_witness :
    (OutItem.json (rank_products_for_user none productsFix [1] 1) ∈
      (kp_ingredients_main (fun _ => some [1]) (some productsFix) none
        ["kumo_personalized_ingredients.py", "[1]", "1"]).stdout) ∧
    (∃ rows, OutItem.json (rank_products_for_user none productsFix [1] 1) = OutItem.json rows) ∧
    (OutItem.text kpUsage ∈ (kumo_predictions_main envNoCsv ["kumo_predictions.py"]).stdout) ∧
    ((∃ rows, OutItem.text kpUsage = OutItem.json rows) ∨
      (∃ q, OutItem.text kpUsage = OutItem.jsonNum q) ∨
      (∃ d, OutItem.text kpUsage = OutItem.jsonObj d) ∨
      OutItem.text kpUsage = OutItem.text kpUsage ∨
      OutItem.text kpUsage = OutItem.text kpInvalidType) := by
  have hmem1 : OutItem.json (rank_products_for_user none productsFix [1] 1) ∈
      (kp_ingredients_main (fun _ => some [1]) (some productsFix) none
        ["kumo_personalized_ingredients.py", "[1]", "1"]).stdout :=
    List.mem_singleton.mpr rfl
  have hmem2 : OutItem.text kpUsage ∈
      (kumo_predictions_main envNoCsv ["kumo_predictions.py"]).stdout :=
    List.mem_singleton.mpr rfl
  refine ⟨hmem1, ?_, hmem2, ?_⟩
  · exact (C4_stdout_is_json (fun _ => some [1]) (some productsFix) none envNoCsv
      ["kumo_personalized_ingredients.py", "[1]", "1"] ["kumo_predictions.py"]).1 _ hmem1
  · exact (C4_stdout_is_json (fun _ => some [1]) (some productsFix) none envNoCsv
      ["kumo_personalized_ingredients.py", "[1]", "1"] ["kumo_predictions.py"]).2 _ hmem2

/-- Counterexample to C4 as stated: with too few arguments
`kumo_predictions.py` prints its usage diagnostic to standard output (not
JSON) and nothing to standard error. -/
theorem C4_counterexample :
    (kumo_predictions_main envNoCsv ["kumo_predictions.py"]).stdout = [OutItem.text kpUsage] ∧
    (kumo_predictions_main envNoCsv ["kumo_predictions.py"]).stderr = [] :=
  ⟨rfl, rfl⟩

/-! ### C7: fallback product batches -/

theorem fallback_batch_length (o : FallbackOracle) (category : String) (n s : Nat) :
    (generate_fallback_batch o category n s).length = n := by
  simp [generate_fallback_batch]

theorem fallback_batch_ids (o : FallbackOracle) (category : String) (n s : Nat) :
    (generate_fallback_batch o category n s).map (·.product_id) = List.range' s n := by
  unfold generate_fallback_batch
  rw [List.map_map, List.range'_eq_map_range]
  refine List.map_congr_left ?_
  intro i hi
  simp only [Function.comp_apply]
  split_ifs <;> rfl

theorem fallback_batch_category (o : FallbackOracle) (category : String) (n s : Nat) :
    ∀ p ∈ generate_fallback_batch o category n s, p.category = category := by
  intro p hp
  unfold generate_fallback_batch at hp
  rcases List.mem_map.mp hp with ⟨i, _, rfl⟩
  split_ifs <;> rfl

/-- C7: a failing (raising) product-generation API call makes
`generate_base_products_batch` return `generate_fallback_batch`, which
produces exactly `batch_size` products in the requested category with the
consecutive ids `start_id, …, start_id + batch_size - 1`. -/
theorem C7_api_failure_fallback (api : Except Unit (List RawProduct)) (o : FallbackOracle)
    (category : String) (batch_size start_id : Nat) (e : Unit) (h : api = .error e) :
    generate_base_products_batch api o category batch_size start_id =
      generate_fallback_batch o category batch_size start_id
    ∧ (generate_fallback_batch o category batch_size start_id).length = batch_size
    ∧ (generate_fallback_batch o category batch_size start_id).map (·.product_id) =
        List.range' start_id batch_size
    ∧ ∀ p ∈ generate_fallback_batch o category batch_size start_id, p.category = category := by
  subst h
  exact ⟨rfl, fallback_batch_length o category batch_size start_id,
    fallback_batch_ids o category batch_size start_id,
    fallback_batch_category o category batch_size start_id⟩

/-- Witness for C7 at a concrete failing call: two Produce products with ids
5 and 6. -/
theorem C7_api_failure_fallback_witness :
    ((Except.error () : Except Unit (List RawProduct)) = .error ()) ∧
    generate_base_products_batch (.error ()) fbTrivial "Produce" 2 5 =
      generate_fallback_batch fbTrivial "Produce" 2 5
    ∧ (generate_fallback_batch fbTrivial "Produce" 2 5).length = 2
    ∧ (generate_fallback_batch fbTrivial "Produce" 2 5).map (·.product_id) = [5, 6]
    ∧ ∀ p ∈ generate_fallback_batch fbTrivial "Produce" 2 5, p.category = "Produce" := by
  have h := C7_api_failure_fallback (.error ()) fbTrivial "Produce" 2 5 () rfl
  exact ⟨rfl, h.1, h.2.1, by rw [h.2.2.1]; rfl, h.2.2.2⟩

/-! ### C8: generated order_items tables never hit the empirical branch -/

/-- C8: tables produced by `generate_order_items` name their flag column
`was_substituted`, never `substituted`; hence whenever such a table has rows
for a product, `get_product_substitution_rate` takes the seeded heuristic
branch instead of the empirical mean. -/
theorem C8_generated_table_not_empirical (o : ItemsOracle) (orders : List OrderRec)
    (products : List Product) (users : List UserRec) (smap : List (Nat × List Nat))
    (f : SeedFn) (prodsDF : Option DataFrame) (pid : ℤ) (s : Rng)
    (hrows : ((orderItemsToDF (generate_order_items o orders products users smap)).byProductId
      (pid : ℚ)).isEmpty = false) :
    "substituted" ∉
      (orderItemsToDF (generate_order_items o orders products users smap)).columns
    ∧ (get_product_substitution_rate f
        (some (orderItemsToDF (generate_order_items o orders products users smap)))
        prodsDF pid s).1 = (substRateHeuristic f prodsDF pid).1 := by
  constructor
  · intro hmem
    simp [orderItemsToDF] at hmem
  · have hpc : "product_id" ∈
        (orderItemsToDF (generate_order_items o orders products users smap)).columns := by
      simp [orderItemsToDF]
    have hsc : ("substituted" ∈
        (orderItemsToDF (generate_order_items o orders products users smap)).columns) = False := by
      simp [orderItemsToDF]
    simp only [get_product_substitution_rate, hpc, if_true, hrows, Bool.false_eq_true,
      if_false, hsc]

theorem affinitiesCE_eval : create_product_affinities productsCE = [] := by
  norm_num [create_product_affinities, catAffinityGroups, productsCE, sortStable, insertSorted,
    List.dedup_cons_of_mem, List.dedup_cons_of_not_mem]
  rfl

/-- A concrete run of `generate_order_items`: one order of user 1 over the
five-product fixture with first-element sampling and no substitution draws. -/
theorem genItems_take_eval :
    generate_order_items ioTake ordersCE productsCE usersCE [] =
      [⟨1, 1, 1, false⟩, ⟨1, 2, 1, false⟩, ⟨1, 3, 1, false⟩,
       ⟨1, 4, 1, false⟩, ⟨1, 5, 1, false⟩] := by
  have huser : ((([⟨1, 1, "none", "Saturday"⟩] : List UserRec).find?
      (fun u => u.user_id == 1)).getD ⟨0, 1, "none", "Saturday"⟩).household_size = 1 := rfl
  have hbasket :
      min (pyTrunc ((((5:Nat):ℚ)) * (1 + ((((1:Nat)):ℚ) - 1) * (3/10)))).toNat 25 = 5 := by
    norm_num [pyTrunc]
    decide
  rw [generate_order_items, affinitiesCE_eval]
  rw [show ordersCE.enum = [(0, (⟨1, 1, 0, "pickup", "9am-11am"⟩ : OrderRec))] from rfl]
  rw [List.map_cons, List.map_nil]
  rw [orderItemsFor]
  simp only [ioTake, usersCE, productsCE]
  rw [huser]
  rw [hbasket]
  simp only [if_neg (show ¬((1:ℚ) < 5/100) by norm_num)]
  decide

/-- Witness for C8: on the concrete run above, product 3 has rows, and the
rate equals the heuristic branch. -/
theorem C8_generated_table_not_empirical_witness :
    (((orderItemsToDF (generate_order_items ioTake ordersCE productsCE usersCE [])).byProductId
      ((3 : ℤ) : ℚ)).isEmpty = false) ∧
    (get_product_substitution_rate (fun _ _ => 1/2)
        (some (orderItemsToDF (generate_order_items ioTake ordersCE productsCE usersCE [])))
        none 3 ⟨fun _ => 0, 0⟩).1 = (substRateHeuristic (fun _ _ => 1/2) none 3).1 := by
  have hrows : ((orderItemsToDF (generate_order_items ioTake ordersCE productsCE usersCE
      [])).byProductId ((3 : ℤ) : ℚ)).isEmpty = false := by
    rw [genItems_take_eval]
    simp only [orderItemsToDF, DataFrame.byProductId, rowGet, List.filter, List.find?]
    decide
  exact ⟨hrows, (C8_generated_table_not_empirical ioTake ordersCE productsCE usersCE []
    (fun _ _ => 1/2) none 3 ⟨fun _ => 0, 0⟩ hrows).2⟩

/-! ### C5: id uniqueness and referential integrity of the generated data -/

theorem simSingle_eval (p : Product) (start : Nat) :
    generate_similar_products soTake [p] start (3/5) (2/5) =
      ([{ p with product_id := start }], [(p.product_id, [start])]) := by
  rw [generate_similar_products]
  simp only [soTake, List.isEmpty_cons, Bool.false_eq_true, if_false, List.length_cons,
    List.length_nil]
  norm_num [pyTrunc]
  rw [variantsLoop]
  simp only [soTake]
  rw [show List.range 1 = [0] from rfl]
  rw [variantsFor, variantsFor, variantsLoop]
  rw [create_similar_product]
  simp only [soTake]
  simp only [if_neg (show ¬((99:ℚ)/100 < 7/10) by norm_num),
    if_neg (show ¬((99:ℚ)/100 < 6/10) by norm_num),
    if_neg (show ¬((99:ℚ)/100 < 8/10) by norm_num),
    if_neg (show ¬((99:ℚ)/100 < 3/10) by norm_num)]
  simp only [List.append_nil]

theorem catLoopFB_eval (cIdx : Nat) (hc : cIdx ≠ 0) (cat : String)
    (m : List (Nat × List Nat)) (counter : Nat) :
    ∃ ps : List Product,
      categoryLoop badApi (fun _ _ => fbTrivial) (fun _ _ => soTake) cIdx cat 1 1
        (3/5) (2/5) [0] ([], m, counter) =
        (ps, m ++ [(counter, [counter + 1])], counter + 2) ∧
      ps.map (·.product_id) = [counter, counter + 1] := by
  have hapi : badApi cIdx 0 = .error () := by simp [badApi, hc]
  obtain ⟨q, hq⟩ : ∃ q, generate_fallback_batch fbTrivial cat 1 counter = [q] := by
    rw [generate_fallback_batch, show List.range 1 = [0] from rfl, List.map_cons, List.map_nil]
    exact ⟨_, rfl⟩
  have hqid : q.product_id = counter := by
    have h := fallback_batch_ids fbTrivial cat 1 counter
    rw [hq] at h
    simpa using h
  refine ⟨[q, { q with product_id := counter + 1 }], ?_, ?_⟩
  · rw [categoryLoop]
    simp only [generate_base_products_batch, hapi, List.length_nil, Nat.cast_zero]
    norm_num
    rw [hq, simSingle_eval]
    simp [categoryLoop, hqid]
  · simp [hqid]

theorem catLoopOk_eval (m : List (Nat × List Nat)) :
    categoryLoop badApi (fun _ _ => fbTrivial) (fun _ _ => soTake) 0 "Produce" 1 1
      (3/5) (2/5) [0] ([], m, 1) =
      ([⟨2, "Pasta", "Produce", "B", "1 lb", "lb", 2⟩,
        ⟨2, "Pasta", "Produce", "B", "1 lb", "lb", 2⟩], m ++ [(2, [2])], 3) := by
  have hbase : generate_base_products_batch (badApi 0 0) fbTrivial "Produce" 1 1 =
      [⟨2, "Pasta", "Produce", "B", "1 lb", "lb", 2⟩] := rfl
  rw [categoryLoop]
  simp only [List.length_nil, Nat.cast_zero]
  norm_num
  rw [hbase, simSingle_eval]
  simp [categoryLoop]

theorem productsViaApi_ids_eval :
    ((generate_products_via_api badApi (fun _ _ => fbTrivial) (fun _ _ => soTake) 1 1
      (3/5) (2/5)).1).map (·.product_id) =
      [2, 2, 3, 4, 5, 6, 7, 8, 9, 10, 11, 12, 13, 14, 15, 16] := by
  obtain ⟨ps1, h1, hid1⟩ := catLoopFB_eval 1 (by decide) "Dairy" [(2, [2])] 3
  obtain ⟨ps2, h2, hid2⟩ := catLoopFB_eval 2 (by decide) "Bakery" [(2, [2]), (3, [4])] 5
  obtain ⟨ps3, h3, hid3⟩ := catLoopFB_eval 3 (by decide) "Meat & Seafood"
    [(2, [2]), (3, [4]), (5, [6])] 7
  obtain ⟨ps4, h4, hid4⟩ := catLoopFB_eval 4 (by decide) "Pantry Staples"
    [(2, [2]), (3, [4]), (5, [6]), (7, [8])] 9
  obtain ⟨ps5, h5, hid5⟩ := catLoopFB_eval 5 (by decide) "Snacks"
    [(2, [2]), (3, [4]), (5, [6]), (7, [8]), (9, [10])] 11
  obtain ⟨ps6, h6, hid6⟩ := catLoopFB_eval 6 (by decide) "Beverages"
    [(2, [2]), (3, [4]), (5, [6]), (7, [8]), (9, [10]), (11, [12])] 13
  obtain ⟨ps7, h7, hid7⟩ := catLoopFB_eval 7 (by decide) "Household"
    [(2, [2]), (3, [4]), (5, [6]), (7, [8]), (9, [10]), (11, [12]), (13, [14])] 15
  rw [generate_products_via_api]
  simp only [show (if (1:Nat) = 0 then 0 else (1 + 1 - 1) / 1) = 1 from rfl,
    show List.range 1 = [0] from rfl,
    show generatorCategories.enum =
      [(0, "Produce"), (1, "Dairy"), (2, "Bakery"), (3, "Meat & Seafood"),
       (4, "Pantry Staples"), (5, "Snacks"), (6, "Beverages"), (7, "Household")] from rfl,
    List.foldl_cons, List.foldl_nil]
  rw [catLoopOk_eval]
  simp only [List.nil_append, List.cons_append]
  rw [h1]
  simp only [List.nil_append, List.cons_append, List.append_nil]
  rw [h2]
  simp only [List.nil_append, List.cons_append, List.append_nil]
  rw [h3]
  simp only [List.nil_append, List.cons_append, List.append_nil]
  rw [h4]
  simp only [List.nil_append, List.cons_append, List.append_nil]
  rw [h5]
  simp only [List.nil_append, List.cons_append, List.append_nil]
  rw [h6]
  simp only [List.nil_append, List.cons_append, List.append_nil]
  rw [h7]
  simp only [List.map_append, hid1, hid2, hid3, hid4, hid5, hid6, hid7,
    List.map_cons, List.map_nil, List.cons_append, List.nil_append]

theorem users_ids_eval (uo : UsersOracle) :
    (generate_users uo).map (·.user_id) = List.range' 1 100 := by
  unfold generate_users
  rw [List.map_map]
  refine (List.map_congr_left fun i hi => rfl).trans (List.map_id _)

theorem orders_ids_eval (users : List UserRec) (oo : OrdersOracle) :
    (generate_orders users oo).map (·.order_id) = List.range' 1 2000 := by
  unfold generate_orders
  rw [List.map_map]
  refine (List.map_congr_left fun i hi => rfl).trans (List.map_id _)

theorem pySetAdd_mem {x : Nat} : ∀ (xs s : List Nat), x ∈ pySetAdd s xs → x ∈ s ∨ x ∈ xs := by
  intro xs
  induction xs with
  | nil => intro s h; exact Or.inl h
  | cons y ys ih =>
    intro s h
    have h2 := ih (if y ∈ s then s else s ++ [y]) (by simpa [pySetAdd] using h)
    rcases h2 with h3 | h3
    · by_cases hy : y ∈ s
      · rw [if_pos hy] at h3
        exact Or.inl h3
      · rw [if_neg hy] at h3
        rcases List.mem_append.mp h3 with h4 | h4
        · exact Or.inl h4
        · exact Or.inr (by rw [List.mem_singleton.mp h4]; exact List.mem_cons_self y ys)
    · exact Or.inr (List.mem_cons_of_mem y h3)

theorem fillLoop_mem (o : ItemsOracle) (i : Nat) (allIds : List Nat) (bs : Nat)
    (hfill : ∀ i w pool k, ∀ x ∈ o.fillSample i w pool k, x ∈ pool) :
    ∀ (budget selected : List Nat), ∀ x ∈ fillLoop o i allIds bs budget selected,
      x ∈ selected ∨ x ∈ allIds := by
  intro budget
  induction budget with
  | nil => intro selected x hx; exact Or.inl (by simpa [fillLoop] using hx)
  | cons w ws ih =>
    intro selected x hx
    rw [fillLoop] at hx
    by_cases hlen : selected.length < bs
    · rw [if_pos hlen] at hx
      rcases ih _ x hx with h | h
      · rcases pySetAdd_mem _ _ h with h2 | h2
        · exact Or.inl h2
        · have h3 := hfill i w _ _ x h2
          exact Or.inr (List.mem_filter.mp h3).1
      · exact Or.inr h
    · rw [if_neg hlen] at hx
      exact Or.inl hx

theorem foldl_append_mem {α β : Type} (h : β → List α) :
    ∀ (l : List β) (init : List α) (e : α), e ∈ l.foldl (fun g c => g ++ h c) init →
      e ∈ init ∨ ∃ c ∈ l, e ∈ h c := by
  intro l
  induction l with
  | nil => intro init e he; exact Or.inl he
  | cons c cs ih =>
    intro init e he
    rw [List.foldl_cons] at he
    rcases ih _ e he with h1 | ⟨c2, hc2, he2⟩
    · rcases List.mem_append.mp h1 with h2 | h2
      · exact Or.inl h2
      · exact Or.inr ⟨c, List.mem_cons_self c cs, h2⟩
    · exact Or.inr ⟨c2, List.mem_cons_of_mem _ hc2, he2⟩

theorem catAffinityGroups_sub (products : List Product) (c : String) :
    ∀ e ∈ catAffinityGroups products c, ∀ q ∈ e.2, q ∈ products.map (·.product_id) := by
  intro e he q hq
  have hg : ∀ x ∈ (products.filter (fun p => p.category == c)).map (·.product_id),
      x ∈ products.map (·.product_id) := by
    intro x hx
    rcases List.mem_map.mp hx with ⟨p, hp, rfl⟩
    exact List.mem_map.mpr ⟨p, List.mem_of_mem_filter hp, rfl⟩
  simp only [catAffinityGroups] at he
  split_ifs at he with h1 h2 h3 h4
  · rcases List.mem_singleton.mp he with rfl
    rcases List.mem_append.mp hq with h5 | h5
    · exact hg q (List.mem_of_mem_filter h5)
    · exact hg q (List.mem_of_mem_filter h5)
  · rcases List.mem_cons.mp he with rfl | he2
    · exact hg q (List.mem_of_mem_filter hq)
    · rcases List.mem_singleton.mp he2 with rfl
      exact hg q (List.mem_of_mem_filter hq)
  · rcases List.mem_singleton.mp he with rfl
    exact hg q hq
  · rcases List.mem_singleton.mp he with rfl
    exact hg q hq
  · cases he

theorem create_product_affinities_sub (products : List Product) :
    ∀ e ∈ create_product_affinities products, ∀ q ∈ e.2, q ∈ products.map (·.product_id) := by
  intro e he q hq
  simp only [create_product_affinities] at he
  rcases foldl_append_mem (catAffinityGroups products) _ [] e he with h | ⟨c, _, he2⟩
  · cases h
  · exact catAffinityGroups_sub products c e he2 q hq

theorem snd_mem_of_mem_enumFrom {α : Type} {p : Nat × α} :
    ∀ (l : List α) (n : Nat), p ∈ l.enumFrom n → p.2 ∈ l := by
  intro l
  induction l with
  | nil => intro n hp; cases hp
  | cons a as ih =>
    intro n hp
    rw [List.enumFrom_cons] at hp
    rcases List.mem_cons.mp hp with rfl | hp2
    · exact List.mem_cons_self a as
    · exact List.mem_cons_of_mem a (ih (n + 1) hp2)

theorem snd_mem_of_mem_enum {α : Type} {p : Nat × α} {l : List α} (hp : p ∈ l.enum) :
    p.2 ∈ l :=
  snd_mem_of_mem_enumFrom l 0 hp

theorem affFold_mem (o : ItemsOracle) (i : Nat) (pids : List Nat)
    (haff : ∀ i g pool k, ∀ x ∈ o.affSample i g pool k, x ∈ pool) :
    ∀ (gl : List (Nat × (String × List Nat))),
      (∀ g ∈ gl, ∀ q ∈ g.2.2, q ∈ pids) →
      ∀ (sel0 : List Nat) (x : Nat),
        x ∈ gl.foldl (fun sel g =>
          if g.2.2.any (fun p => p ∈ sel) then
            pySetAdd sel (o.affSample i g.1 g.2.2 (min (o.affCount i g.1) g.2.2.length))
          else sel) sel0 →
        x ∈ sel0 ∨ x ∈ pids := by
  intro gl
  induction gl with
  | nil => intro hsub sel0 x hx; exact Or.inl hx
  | cons g gs ih =>
    intro hsub sel0 x hx
    rw [List.foldl_cons] at hx
    rcases ih (fun g2 hg2 => hsub g2 (List.mem_cons_of_mem g hg2)) _ x hx with h | h
    · by_cases hc : g.2.2.any (fun p => p ∈ sel0) = true
      · rw [if_pos hc] at h
        rcases pySetAdd_mem _ _ h with h2 | h2
        · exact Or.inl h2
        · exact Or.inr (hsub g (List.mem_cons_self g gs) x (haff i g.1 g.2.2 _ x h2))
      · rw [if_neg hc] at h
        exact Or.inl h
    · exact Or.inr h

theorem orderItemsFor_integrity (o : ItemsOracle) (products : List Product)
    (users : List UserRec) (smap : List (Nat × List Nat)) (i : Nat) (order : OrderRec)
    (hinit : ∀ i pool k, ∀ x ∈ o.initSample i pool k, x ∈ pool)
    (haff : ∀ i g pool k, ∀ x ∈ o.affSample i g pool k, x ∈ pool)
    (hfill : ∀ i w pool k, ∀ x ∈ o.fillSample i w pool k, x ∈ pool)
    (hsubst : ∀ i k l, l ≠ [] → o.substPick i k l ∈ l)
    (hsmap : ∀ e ∈ smap, ∀ q ∈ e.2, q ∈ products.map (·.product_id)) :
    ∀ it ∈ orderItemsFor o products (create_product_affinities products) users smap i order,
      it.order_id = order.order_id ∧ it.product_id ∈ products.map (·.product_id) := by
  intro it hit
  simp only [orderItemsFor] at hit
  rcases List.mem_map.mp hit with ⟨pk, hpk, rfl⟩
  have hsel : pk.2 ∈ products.map (·.product_id) := by
    have h1 : pk.2 ∈ _ := snd_mem_of_mem_enum hpk
    have h2 := List.take_subset _ _ h1
    rcases fillLoop_mem o i _ _ hfill _ _ pk.2 h2 with h3 | h3
    · rcases affFold_mem o i (products.map (·.product_id)) haff
        (create_product_affinities products).enum
        (fun g hg => create_product_affinities_sub products g.2 (snd_mem_of_mem_enum hg))
        _ pk.2 h3 with h4 | h4
      · rcases pySetAdd_mem _ _ h4 with h5 | h5
        · cases h5
        · exact hinit i _ _ pk.2 h5
      · exact h4
    · exact h3
  constructor
  · split_ifs <;> rfl
  · by_cases hs : o.substDraw i pk.1 < 5/100
    · rw [if_pos hs]
      by_cases hempty :
          ((((smap.find? (fun e => e.1 == pk.2)).map (·.2)).getD []).isEmpty = true)
      · rw [if_pos hempty]
        exact hsel
      · rw [if_neg hempty]
        have hne : ((smap.find? (fun e => e.1 == pk.2)).map (·.2)).getD [] ≠ [] := by
          intro hcontra
          rw [hcontra] at hempty
          exact hempty rfl
        have hmem := hsubst i pk.1 _ hne
        rcases hfind : smap.find? (fun e => e.1 == pk.2) with _ | e
        · rw [hfind] at hne
          exact absurd rfl hne
        · rw [hfind] at hmem
          rw [hfind]
          exact hsmap e (List.mem_of_find?_eq_some hfind) _ hmem
    · rw [if_neg hs]
      exact hsel

theorem generate_order_items_integrity (o : ItemsOracle) (orders : List OrderRec)
    (products : List Product) (users : List UserRec) (smap : List (Nat × List Nat))
    (hinit : ∀ i pool k, ∀ x ∈ o.initSample i pool k, x ∈ pool)
    (haff : ∀ i g pool k, ∀ x ∈ o.affSample i g pool k, x ∈ pool)
    (hfill : ∀ i w pool k, ∀ x ∈ o.fillSample i w pool k, x ∈ pool)
    (hsubst : ∀ i k l, l ≠ [] → o.substPick i k l ∈ l)
    (hsmap : ∀ e ∈ smap, ∀ q ∈ e.2, q ∈ products.map (·.product_id)) :
    ∀ it ∈ generate_order_items o orders products users smap,
      it.order_id ∈ orders.map (·.order_id) ∧
      it.product_id ∈ products.map (·.product_id) := by
  intro it hit
  simp only [generate_order_items] at hit
  rcases List.mem_flatten.mp hit with ⟨l, hl, hitl⟩
  rcases List.mem_map.mp hl with ⟨p, hp, rfl⟩
  have h := orderItemsFor_integrity o products users smap p.1 p.2
    hinit haff hfill hsubst hsmap it hitl
  exact ⟨List.mem_map.mpr ⟨p.2, snd_mem_of_mem_enum hp, h.1.symm⟩, h.2⟩

/-- C5 (amended): user ids are exactly 1..100 and order ids exactly 1..2000,
both duplicate-free; every generated order references a generated user
(given the `randint(1, 100)` contract), and every generated order item
references a generated order and a product of the products table (given the
`random.sample`/`random.choice` contracts and a substitution map into the
table). Product ids, however, are NOT always unique: see the
counterexample. -/
theorem C5_id_uniqueness_and_referential_integrity
    (uo : UsersOracle) (oo : OrdersOracle) (io : ItemsOracle)
    (products : List Product) (smap : List (Nat × List Nat))
    (huid : ∀ n, 1 ≤ oo.uid n ∧ oo.uid n ≤ 100)
    (hinit : ∀ i pool k, ∀ x ∈ io.initSample i pool k, x ∈ pool)
    (haff : ∀ i g pool k, ∀ x ∈ io.affSample i g pool k, x ∈ pool)
    (hfill : ∀ i w pool k, ∀ x ∈ io.fillSample i w pool k, x ∈ pool)
    (hsubst : ∀ i k l, l ≠ [] → io.substPick i k l ∈ l)
    (hsmap : ∀ e ∈ smap, ∀ q ∈ e.2, q ∈ products.map (·.product_id)) :
    ((generate_users uo).map (·.user_id)).Nodup ∧
    ((generate_orders (generate_users uo) oo).map (·.order_id)).Nodup ∧
    (∀ od ∈ generate_orders (generate_users uo) oo,
      od.user_id ∈ (generate_users uo).map (·.user_id)) ∧
    (∀ it ∈ generate_order_items io (generate_orders (generate_users uo) oo) products
        (generate_users uo) smap,
      it.order_id ∈ (generate_orders (generate_users uo) oo).map (·.order_id) ∧
      it.product_id ∈ products.map (·.product_id)) := by
  refine ⟨?_, ?_, ?_, ?_⟩
  · rw [users_ids_eval]
    exact List.nodup_range' _ _
  · rw [orders_ids_eval]
    exact List.nodup_range' _ _
  · intro od hod
    rw [users_ids_eval]
    simp only [generate_orders] at hod
    rcases List.mem_map.mp hod with ⟨oid, hoid, rfl⟩
    have h := huid oid
    show oo.uid oid ∈ List.range' 1 100
    exact List.mem_range'_1.mpr ⟨h.1, by omega⟩
  · exact generate_order_items_integrity io _ products _ smap hinit haff hfill hsubst hsmap

/-- Witness for C5: the concrete oracles (constant user 1, first-element
samples, no substitution map) satisfy every contract, and the generated
users, orders and order items enjoy the stated uniqueness and referential
integrity. -/
theorem C5_id_uniqueness_and_referential_integrity_witness :
    (∀ n : Nat, 1 ≤ ooFix.uid n ∧ ooFix.uid n ≤ 100) ∧
    ((generate_users uoFix).map (·.user_id)).Nodup ∧
    ((generate_orders (generate_users uoFix) ooFix).map (·.order_id)).Nodup ∧
    (∀ od ∈ generate_orders (generate_users uoFix) ooFix,
      od.user_id ∈ (generate_users uoFix).map (·.user_id)) ∧
    (∀ it ∈ generate_order_items ioTake (generate_orders (generate_users uoFix) ooFix)
        productsCE (generate_users uoFix) [],
      it.order_id ∈ (generate_orders (generate_users uoFix) ooFix).map (·.order_id) ∧
      it.product_id ∈ productsCE.map (·.product_id)) := by
  have h := C5_id_uniqueness_and_referential_integrity uoFix ooFix ioTake productsCE []
    (fun n => ⟨le_refl 1, by norm_num [ooFix]⟩)
    (fun i pool k x hx => List.take_subset _ _ (by simpa [ioTake] using hx))
    (fun i g pool k x hx => List.take_subset _ _ (by simpa [ioTake] using hx))
    (fun i w pool k x hx => List.take_subset _ _ (by simpa [ioTake] using hx))
    (fun i k l hl => by
      cases l with
      | nil => exact absurd rfl hl
      | cons a as => exact List.mem_cons_self a as)
    (fun e he => absurd he (List.not_mem_nil e))
  exact ⟨fun n => ⟨le_refl 1, by norm_num [ooFix]⟩, h⟩

/-- Counterexample to the product-id-uniqueness part of C5: when the API
answers the very first Produce batch with a malformed entry followed by a
valid one, the valid entry is numbered by its enumerate position (id 2 =
start 1 + index 1) while the id counter advances only by the count of valid
entries, so the first similar product is assigned the duplicate id 2. -/
theorem C5_counterexample :
    ¬ (((generate_products_via_api badApi (fun _ _ => fbTrivial) (fun _ _ => soTake) 1 1
        (3/5) (2/5)).1).map (·.product_id)).Nodup := by
  rw [productsViaApi_ids_eval]
  decide

end SmartGrocer
